import Mathlib

/-!
Verification of the resume-analysis / job-recommendation engine
(`job_recommender.py`, `advanced_resume_parser.py`).

Texts are modelled as lists of characters (`Text`), Python floats as exact
rationals (`ℚ`), Python dicts as insertion-ordered association lists, and the
external sentence-embedding similarity as an explicit function parameter.
Every definition is a direct translation of the corresponding Python function;
the source file and line are recorded in each doc comment.
-/

namespace JobRec

/-- Resume and posting texts are modelled as lists of characters. -/
abbrev Text := List Char

/-- Character list of a string literal. -/
def s (x : String) : Text := x.data

/-- Python `str.lower()` restricted to the modelled character alphabet. -/
def lower (t : Text) : Text := t.map Char.toLower

/-- Does `needle` occur at the very start of `hay`? -/
def prefixMatch : Text → Text → Bool
  | [], _ => true
  | _ :: _, [] => false
  | a :: as, b :: bs => a == b && prefixMatch as bs

/-- Python's substring operator `needle in hay`. -/
def substr (needle : Text) : Text → Bool
  | [] => prefixMatch needle []
  | c :: cs => prefixMatch needle (c :: cs) || substr needle cs

/-- Python `' '.join(xs)`. -/
def joinSp (xs : List Text) : Text := List.intercalate (s " ") xs

/-- Python `'\n'.join(xs)`. -/
def joinNL (xs : List Text) : Text := List.intercalate (s "\n") xs

/-- Python `str.strip()`. -/
def stripT (t : Text) : Text :=
  ((t.dropWhile Char.isWhitespace).reverse.dropWhile Char.isWhitespace).reverse

/-- The seven career domains of `analyze_resume_type` (`job_recommender.py:557-635`),
in the declaration order of the `domain_keywords` dict. -/
inductive Domain
  | javascript_fullstack
  | python_development
  | java_development
  | cybersecurity
  | data_science
  | devops
  | cloud_engineering
deriving DecidableEq

/-- The seven domains in the fixed declaration order of the dict. -/
def domainsInOrder : List Domain :=
  [.javascript_fullstack, .python_development, .java_development, .cybersecurity,
   .data_science, .devops, .cloud_engineering]

/-- The dict key naming each domain. -/
def domainName : Domain → Text
  | .javascript_fullstack => s "javascript_fullstack"
  | .python_development => s "python_development"
  | .java_development => s "java_development"
  | .cybersecurity => s "cybersecurity"
  | .data_science => s "data_science"
  | .devops => s "devops"
  | .cloud_engineering => s "cloud_engineering"

/-- The five term buckets of one domain (`job_recommender.py:557-635`). -/
structure DomainData where
  keywords : List Text
  tools : List Text
  frameworks : List Text
  databases : List Text
  cloud : List Text

/-- The `domain_keywords` dict of `analyze_resume_type` (`job_recommender.py:557-635`). -/
def domain_keywords : Domain → DomainData
  | .javascript_fullstack =>
    { keywords := [s "javascript", s "js", s "es6", s "es6+", s "typescript", s "ts", s "node.js", s "nodejs", s "react", s "react.js", s "angular", s "vue", s "vue.js", s "next.js", s "nuxt.js", s "express.js", s "express", s "mern", s "mean", s "full stack", s "fullstack", s "frontend", s "backend", s "web development", s "web developer", s "frontend developer", s "backend developer", s "full stack developer", s "fullstack developer"]
      tools := [s "npm", s "yarn", s "webpack", s "babel", s "eslint", s "prettier", s "jest", s "mocha"]
      frameworks := [s "react", s "angular", s "vue", s "express", s "fastify", s "koa", s "next.js", s "nuxt.js"]
      databases := [s "mongodb", s "mysql", s "postgresql", s "firebase", s "redis"]
      cloud := [s "aws", s "vercel", s "netlify", s "heroku", s "digitalocean"] }
  | .python_development =>
    { keywords := [s "python", s "django", s "flask", s "fastapi", s "pyramid", s "bottle", s "cherrypy", s "python developer", s "django developer", s "flask developer", s "backend developer", s "api developer", s "python engineer", s "software engineer python"]
      tools := [s "pip", s "virtualenv", s "conda", s "pytest", s "unittest", s "black", s "flake8"]
      frameworks := [s "django", s "flask", s "fastapi", s "pyramid", s "bottle"]
      databases := [s "postgresql", s "mysql", s "sqlite", s "mongodb", s "redis"]
      cloud := [s "aws", s "azure", s "gcp", s "heroku", s "digitalocean"] }
  | .java_development =>
    { keywords := [s "java", s "spring", s "spring boot", s "spring framework", s "hibernate", s "maven", s "gradle", s "java developer", s "spring developer", s "backend developer", s "java engineer", s "software engineer java", s "enterprise java"]
      tools := [s "maven", s "gradle", s "ant", s "junit", s "mockito", s "intellij", s "eclipse"]
      frameworks := [s "spring", s "spring boot", s "spring mvc", s "hibernate", s "struts"]
      databases := [s "oracle", s "mysql", s "postgresql", s "mongodb", s "redis"]
      cloud := [s "aws", s "azure", s "gcp", s "openshift", s "kubernetes"] }
  | .cybersecurity =>
    { keywords := [s "security", s "cybersecurity", s "cyber security", s "penetration", s "ethical hacker", s "vulnerability", s "threat", s "incident response", s "soc", s "siem", s "firewall", s "ids", s "ips", s "malware", s "forensics", s "compliance", s "audit", s "risk"]
      tools := [s "wireshark", s "nmap", s "metasploit", s "burp suite", s "nessus", s "owasp"]
      frameworks := [s "owasp", s "nist", s "iso 27001", s "pci dss"]
      databases := [s "splunk", s "elk", s "qradar", s "fireeye"]
      cloud := [s "aws security", s "azure defender", s "gcp security"] }
  | .data_science =>
    { keywords := [s "data scientist", s "data analyst", s "machine learning", s "ml", s "deep learning", s "ai", s "artificial intelligence", s "statistics", s "predictive modeling", s "data visualization", s "nlp", s "computer vision", s "big data"]
      tools := [s "python", s "r", s "sql", s "pandas", s "numpy", s "scikit-learn", s "tensorflow", s "pytorch"]
      frameworks := [s "scikit-learn", s "tensorflow", s "pytorch", s "keras", s "spark"]
      databases := [s "postgresql", s "mysql", s "mongodb", s "hadoop", s "spark"]
      cloud := [s "aws", s "azure", s "gcp", s "databricks", s "sagemaker"] }
  | .devops =>
    { keywords := [s "devops", s "ci/cd", s "continuous integration", s "continuous deployment", s "infrastructure", s "automation", s "monitoring", s "logging", s "deployment"]
      tools := [s "docker", s "kubernetes", s "jenkins", s "gitlab", s "github actions", s "terraform", s "ansible"]
      frameworks := [s "kubernetes", s "docker swarm", s "jenkins", s "gitlab ci"]
      databases := [s "prometheus", s "grafana", s "elk", s "splunk"]
      cloud := [s "aws", s "azure", s "gcp", s "digitalocean", s "linode"] }
  | .cloud_engineering =>
    { keywords := [s "cloud engineer", s "cloud architect", s "aws engineer", s "azure engineer", s "gcp engineer", s "cloud developer", s "infrastructure engineer"]
      tools := [s "terraform", s "cloudformation", s "ansible", s "docker", s "kubernetes"]
      frameworks := [s "aws", s "azure", s "gcp", s "kubernetes", s "docker"]
      databases := [s "rds", s "dynamodb", s "cosmos db", s "firestore"]
      cloud := [s "aws", s "azure", s "gcp", s "digitalocean", s "linode"] }

/-- One entry of the `domain_scores` dict (`job_recommender.py:656-668`). -/
structure DomainScore where
  score : ℚ
  keyword_matches : List Text
  tool_matches : List Text
  framework_matches : List Text
  database_matches : List Text
  cloud_matches : List Text
  total_keywords : Nat
  total_tools : Nat
  total_frameworks : Nat
  total_databases : Nat
  total_cloud : Nat
deriving DecidableEq

/-- Python `round(x, 1)` (`job_recommender.py:657`), modelled on exact rationals.
Python rounds the nearest binary float half to even; on exact rationals we use
Mathlib's `round` (half away from one direction), which agrees everywhere the
claims are sensitive. -/
def round1 (x : ℚ) : ℚ := ((round (10 * x) : ℤ) : ℚ) / 10

/-- Per-domain weighted bucket scoring of `analyze_resume_type`
(`job_recommender.py:637-668`): each bucket contributes
`(matched count / bucket size) * weight` with weights 40/25/20/10/5, and the
total is rounded to one decimal place. -/
def computeDomainScore (d : Domain) (resume_text : Text) : DomainScore :=
  let data := domain_keywords d
  let rlow := lower resume_text
  let keyword_matches := data.keywords.filter (fun kw => substr (lower kw) rlow)
  let tool_matches := data.tools.filter (fun tool => substr (lower tool) rlow)
  let framework_matches := data.frameworks.filter (fun fw => substr (lower fw) rlow)
  let database_matches := data.databases.filter (fun db => substr (lower db) rlow)
  let cloud_matches := data.cloud.filter (fun cl => substr (lower cl) rlow)
  let keyword_score : ℚ := (keyword_matches.length : ℚ) / (data.keywords.length : ℚ) * 40
  let tool_score : ℚ := (tool_matches.length : ℚ) / (data.tools.length : ℚ) * 25
  let framework_score : ℚ := (framework_matches.length : ℚ) / (data.frameworks.length : ℚ) * 20
  let database_score : ℚ := (database_matches.length : ℚ) / (data.databases.length : ℚ) * 10
  let cloud_score : ℚ := (cloud_matches.length : ℚ) / (data.cloud.length : ℚ) * 5
  let total_score := keyword_score + tool_score + framework_score + database_score + cloud_score
  { score := round1 total_score
    keyword_matches := keyword_matches
    tool_matches := tool_matches
    framework_matches := framework_matches
    database_matches := database_matches
    cloud_matches := cloud_matches
    total_keywords := data.keywords.length
    total_tools := data.tools.length
    total_frameworks := data.frameworks.length
    total_databases := data.databases.length
    total_cloud := data.cloud.length }

/-- The `domain_scores.items()` list, in dict insertion order
(`job_recommender.py:638-668`). -/
def allItems (resume_text : Text) : List (Text × DomainScore) :=
  domainsInOrder.map (fun d => (domainName d, computeDomainScore d resume_text))

/-- Python `max(items, key=lambda x: x[1]["score"])`: fold keeping the current
maximum, replacing it only on a strictly larger score, so the first of equal
maxima wins (`job_recommender.py:671`). -/
def pickMax (l : List (Text × DomainScore)) (b : Text × DomainScore) : Text × DomainScore :=
  l.foldl (fun best p => if best.2.score < p.2.score then p else best) b

/-- The pair selected by `max(domain_scores.items(), ...)` (`job_recommender.py:671`).
The empty case is unreachable: `allItems` always has seven entries. -/
def primaryPair (resume_text : Text) : Text × DomainScore :=
  match allItems resume_text with
  | [] => (s "", ⟨0, [], [], [], [], [], 0, 0, 0, 0, 0⟩)
  | x :: xs => pickMax xs x

/-- The `detect_subdomain` function (`job_recommender.py:693-767`): domain-specific
ordered decision tree over marker substrings of the lowercased resume text,
dispatching on the primary-domain name string; an unrecognized name yields
`"general"`. -/
def detect_subdomain (resume_text : Text) (primary_domain : Text) : Text :=
  let resume_lower := lower resume_text
  if primary_domain = s "javascript_fullstack" then
    if substr (s "frontend") resume_lower && substr (s "backend") resume_lower then
      s "full_stack"
    else if substr (s "frontend") resume_lower then
      s "frontend"
    else if substr (s "backend") resume_lower then
      s "backend"
    else if substr (s "mern") resume_lower || substr (s "mean") resume_lower then
      s "mern_stack"
    else
      s "javascript_developer"
  else if primary_domain = s "python_development" then
    if substr (s "django") resume_lower then s "django_developer"
    else if substr (s "flask") resume_lower then s "flask_developer"
    else if substr (s "fastapi") resume_lower then s "fastapi_developer"
    else s "python_developer"
  else if primary_domain = s "java_development" then
    if substr (s "spring") resume_lower then s "spring_developer"
    else if substr (s "hibernate") resume_lower then s "hibernate_developer"
    else s "java_developer"
  else if primary_domain = s "cybersecurity" then
    if substr (s "penetration") resume_lower || substr (s "ethical hacker") resume_lower then
      s "penetration_tester"
    else if substr (s "incident response") resume_lower then s "incident_response"
    else if substr (s "soc") resume_lower then s "soc_analyst"
    else s "security_analyst"
  else if primary_domain = s "data_science" then
    if substr (s "machine learning") resume_lower || substr (s "ml") resume_lower then
      s "ml_engineer"
    else if substr (s "nlp") resume_lower then s "nlp_engineer"
    else if substr (s "computer vision") resume_lower then s "computer_vision_engineer"
    else s "data_scientist"
  else if primary_domain = s "devops" then
    if substr (s "ci/cd") resume_lower then s "ci_cd_engineer"
    else if substr (s "kubernetes") resume_lower then s "kubernetes_engineer"
    else if substr (s "terraform") resume_lower then s "infrastructure_engineer"
    else s "devops_engineer"
  else if primary_domain = s "cloud_engineering" then
    if substr (s "aws") resume_lower then s "aws_engineer"
    else if substr (s "azure") resume_lower then s "azure_engineer"
    else if substr (s "gcp") resume_lower then s "gcp_engineer"
    else s "cloud_engineer"
  else
    s "general"

/-- The three informational flags of the analysis (`job_recommender.py:686-690`). -/
structure AnalysisFlags where
  is_strong_focus : Bool
  has_multiple_skills : Bool
  is_specialized : Bool
deriving DecidableEq

/-- The dict returned by `analyze_resume_type` (`job_recommender.py:679-691`). -/
structure ResumeAnalysis where
  primary_domain : Text
  primary_score : ℚ
  subdomain : Text
  all_domains : List (Text × DomainScore)
  top_domains : List (Text × DomainScore)
  resume_text_length : Nat
  analysis : AnalysisFlags
deriving DecidableEq

/-- Ordering used by `sorted(domain_scores.items(), key=..., reverse=True)`:
Python's stable sort in descending score order. -/
def scoreRel (a b : Text × DomainScore) : Prop := b.2.score ≤ a.2.score

instance : DecidableRel scoreRel := fun a b =>
  inferInstanceAs (Decidable (b.2.score ≤ a.2.score))

/-- The `analyze_resume_type` function (`job_recommender.py:550-691`). -/
def analyze_resume_type (resume_text : Text) : ResumeAnalysis :=
  let domain_scores := allItems resume_text
  let primary_domain := primaryPair resume_text
  let top_domains := (domain_scores.insertionSort scoreRel).take 3
  let subdomain := detect_subdomain resume_text primary_domain.1
  { primary_domain := primary_domain.1
    primary_score := primary_domain.2.score
    subdomain := subdomain
    all_domains := domain_scores
    top_domains := top_domains
    resume_text_length := resume_text.length
    analysis :=
      { is_strong_focus := decide (30 < primary_domain.2.score)
        has_multiple_skills :=
          decide (1 < (domain_scores.filter (fun d => decide (20 < d.2.score))).length)
        is_specialized := decide (50 < primary_domain.2.score) } }

/-- Association-list lookup modelling a Python dict read `m[k]`
(`None` models a `KeyError`). -/
def dget (k : Text) : List (Text × DomainScore) → Option DomainScore
  | [] => none
  | (k', v) :: rest => if k' = k then some v else dget k rest

/-- The `generate_javascript_query` builder (`job_recommender.py:95-129`). -/
def generate_javascript_query (primary_data : DomainScore) (subdomain : Text)
    (location : Text) : Text :=
  let frameworks := primary_data.framework_matches.take 3
  let databases := primary_data.database_matches.take 2
  if subdomain = s "full_stack" then
    if !frameworks.isEmpty && !databases.isEmpty then
      s "Full Stack Developer " ++ joinSp frameworks ++ s " " ++ joinSp databases ++
        s " " ++ location ++ s " jobs"
    else
      s "Full Stack Developer JavaScript React Node.js " ++ location ++ s " jobs"
  else if subdomain = s "mern_stack" then
    s "MERN Stack Developer MongoDB Express React Node.js " ++ location ++ s " jobs"
  else if subdomain = s "frontend" then
    if !frameworks.isEmpty then
      s "Frontend Developer " ++ joinSp frameworks ++ s " " ++ location ++ s " jobs"
    else
      s "Frontend Developer JavaScript React " ++ location ++ s " jobs"
  else if subdomain = s "backend" then
    if !frameworks.isEmpty && !databases.isEmpty then
      s "Backend Developer " ++ joinSp frameworks ++ s " " ++ joinSp databases ++
        s " " ++ location ++ s " jobs"
    else
      s "Backend Developer Node.js Express " ++ location ++ s " jobs"
  else
    if !frameworks.isEmpty then
      s "JavaScript Developer " ++ joinSp frameworks ++ s " " ++ location ++ s " jobs"
    else
      s "JavaScript Developer " ++ location ++ s " jobs"

/-- The `generate_python_query` builder (`job_recommender.py:131-146`). -/
def generate_python_query (primary_data : DomainScore) (subdomain : Text)
    (location : Text) : Text :=
  let frameworks := primary_data.framework_matches.take 2
  if subdomain = s "django_developer" then
    s "Django Developer Python " ++ location ++ s " jobs"
  else if subdomain = s "flask_developer" then
    s "Flask Developer Python " ++ location ++ s " jobs"
  else if subdomain = s "fastapi_developer" then
    s "FastAPI Developer Python " ++ location ++ s " jobs"
  else
    if !frameworks.isEmpty then
      s "Python Developer " ++ joinSp frameworks ++ s " " ++ location ++ s " jobs"
    else
      s "Python Developer " ++ location ++ s " jobs"

/-- The `generate_java_query` builder (`job_recommender.py:148-161`). -/
def generate_java_query (primary_data : DomainScore) (subdomain : Text)
    (location : Text) : Text :=
  let frameworks := primary_data.framework_matches.take 2
  if subdomain = s "spring_developer" then
    s "Spring Developer Java " ++ location ++ s " jobs"
  else if subdomain = s "hibernate_developer" then
    s "Hibernate Developer Java " ++ location ++ s " jobs"
  else
    if !frameworks.isEmpty then
      s "Java Developer " ++ joinSp frameworks ++ s " " ++ location ++ s " jobs"
    else
      s "Java Developer " ++ location ++ s " jobs"

/-- The `generate_cybersecurity_query` builder (`job_recommender.py:163-178`). -/
def generate_cybersecurity_query (primary_data : DomainScore) (subdomain : Text)
    (location : Text) : Text :=
  let tools := primary_data.tool_matches.take 2
  if subdomain = s "penetration_tester" then
    s "Penetration Tester Ethical Hacker " ++ location ++ s " jobs"
  else if subdomain = s "incident_response" then
    s "Incident Response Analyst " ++ location ++ s " jobs"
  else if subdomain = s "soc_analyst" then
    s "SOC Analyst Security Operations " ++ location ++ s " jobs"
  else
    if !tools.isEmpty then
      s "Cybersecurity Engineer " ++ joinSp tools ++ s " " ++ location ++ s " jobs"
    else
      s "Cybersecurity Engineer " ++ location ++ s " jobs"

/-- The `generate_data_science_query` builder (`job_recommender.py:180-195`). -/
def generate_data_science_query (primary_data : DomainScore) (subdomain : Text)
    (location : Text) : Text :=
  let tools := primary_data.tool_matches.take 2
  if subdomain = s "ml_engineer" then
    s "Machine Learning Engineer Python " ++ location ++ s " jobs"
  else if subdomain = s "nlp_engineer" then
    s "NLP Engineer Natural Language Processing " ++ location ++ s " jobs"
  else if subdomain = s "computer_vision_engineer" then
    s "Computer Vision Engineer Python " ++ location ++ s " jobs"
  else
    if !tools.isEmpty then
      s "Data Scientist " ++ joinSp tools ++ s " " ++ location ++ s " jobs"
    else
      s "Data Scientist " ++ location ++ s " jobs"

/-- The `generate_devops_query` builder (`job_recommender.py:197-212`). -/
def generate_devops_query (primary_data : DomainScore) (subdomain : Text)
    (location : Text) : Text :=
  let tools := primary_data.tool_matches.take 2
  if subdomain = s "ci_cd_engineer" then
    s "CI/CD Engineer Jenkins GitLab " ++ location ++ s " jobs"
  else if subdomain = s "kubernetes_engineer" then
    s "Kubernetes Engineer DevOps " ++ location ++ s " jobs"
  else if subdomain = s "infrastructure_engineer" then
    s "Infrastructure Engineer Terraform " ++ location ++ s " jobs"
  else
    if !tools.isEmpty then
      s "DevOps Engineer " ++ joinSp tools ++ s " " ++ location ++ s " jobs"
    else
      s "DevOps Engineer " ++ location ++ s " jobs"

/-- The `generate_cloud_query` builder (`job_recommender.py:214-229`). -/
def generate_cloud_query (primary_data : DomainScore) (subdomain : Text)
    (location : Text) : Text :=
  let cloud_platforms := primary_data.cloud_matches.take 2
  if subdomain = s "aws_engineer" then
    s "AWS Engineer Cloud " ++ location ++ s " jobs"
  else if subdomain = s "azure_engineer" then
    s "Azure Engineer Cloud " ++ location ++ s " jobs"
  else if subdomain = s "gcp_engineer" then
    s "GCP Engineer Cloud " ++ location ++ s " jobs"
  else
    if !cloud_platforms.isEmpty then
      s "Cloud Engineer " ++ joinSp cloud_platforms ++ s " " ++ location ++ s " jobs"
    else
      s "Cloud Engineer " ++ location ++ s " jobs"

/-- The `generate_smart_query` dispatcher (`job_recommender.py:57-93`).
The function first reads `resume_analysis["all_domains"][primary_domain]`; a
missing key raises in Python, modelled by `none`. -/
def generate_smart_query (resume_analysis : ResumeAnalysis) (location : Text) :
    Option Text :=
  let primary_domain := resume_analysis.primary_domain
  let subdomain := resume_analysis.subdomain
  match dget primary_domain resume_analysis.all_domains with
  | none => none
  | some primary_data =>
    if primary_domain = s "javascript_fullstack" then
      some (generate_javascript_query primary_data subdomain location)
    else if primary_domain = s "python_development" then
      some (generate_python_query primary_data subdomain location)
    else if primary_domain = s "java_development" then
      some (generate_java_query primary_data subdomain location)
    else if primary_domain = s "cybersecurity" then
      some (generate_cybersecurity_query primary_data subdomain location)
    else if primary_domain = s "data_science" then
      some (generate_data_science_query primary_data subdomain location)
    else if primary_domain = s "devops" then
      some (generate_devops_query primary_data subdomain location)
    else if primary_domain = s "cloud_engineering" then
      some (generate_cloud_query primary_data subdomain location)
    else
      some (s "Software Developer " ++ location ++ s " jobs")

/-- The tier loop shared by every `calculate_*_boost` function
(`job_recommender.py:355-359` and analogues): for each tier, add the tier's
bonus once for every keyword found in the posting text. -/
def addKeywordBoosts (job_text : Text) (tiers : List (List Text × ℚ)) (boost : ℚ) : ℚ :=
  tiers.foldl
    (fun acc tier =>
      tier.1.foldl (fun a kw => if substr kw job_text then a + tier.2 else a) acc)
    boost

/-- The `calculate_javascript_boost` function (`job_recommender.py:320-361`).
`job_text` is already lowercased by the caller. -/
def calculate_javascript_boost (job_text : Text) (subdomain : Text) : ℚ :=
  let js_tiers : List (List Text × ℚ) :=
    [([s "javascript", s "js", s "typescript", s "ts", s "react", s "angular", s "vue", s "node.js", s "nodejs"], 0.15),
     ([s "express", s "mongodb", s "mysql", s "firebase", s "full stack", s "fullstack", s "mern", s "mean"], 0.10),
     ([s "npm", s "yarn", s "webpack", s "babel", s "eslint", s "jest", s "mocha", s "tailwindcss", s "html5", s "css3"], 0.05)]
  let boost : ℚ := 0
  let boost :=
    if subdomain = s "full_stack" then
      let b := if substr (s "full stack") job_text || substr (s "fullstack") job_text then
        boost + 0.3 else boost
      if substr (s "frontend") job_text && substr (s "backend") job_text then b + 0.2 else b
    else if subdomain = s "mern_stack" then
      if substr (s "mern") job_text ||
          (substr (s "mongodb") job_text && substr (s "express") job_text &&
           substr (s "react") job_text && substr (s "node") job_text) then
        boost + 0.4 else boost
    else if subdomain = s "frontend" then
      let b := if substr (s "frontend") job_text || substr (s "front-end") job_text then
        boost + 0.3 else boost
      if substr (s "react") job_text || substr (s "angular") job_text ||
          substr (s "vue") job_text then b + 0.2 else b
    else if subdomain = s "backend" then
      let b := if substr (s "backend") job_text || substr (s "back-end") job_text then
        boost + 0.3 else boost
      if substr (s "node.js") job_text || substr (s "express") job_text then b + 0.2 else b
    else boost
  addKeywordBoosts job_text js_tiers boost

/-- The `calculate_python_boost` function (`job_recommender.py:363-388`). -/
def calculate_python_boost (job_text : Text) (subdomain : Text) : ℚ :=
  let python_tiers : List (List Text × ℚ) :=
    [([s "python", s "django", s "flask", s "fastapi"], 0.15),
     ([s "pyramid", s "bottle", s "cherrypy", s "api developer", s "backend developer"], 0.10),
     ([s "pip", s "virtualenv", s "conda", s "pytest", s "unittest"], 0.05)]
  let boost : ℚ := 0
  let boost :=
    if subdomain = s "django_developer" && substr (s "django") job_text then boost + 0.3
    else if subdomain = s "flask_developer" && substr (s "flask") job_text then boost + 0.3
    else if subdomain = s "fastapi_developer" && substr (s "fastapi") job_text then boost + 0.3
    else boost
  addKeywordBoosts job_text python_tiers boost

/-- The `calculate_java_boost` function (`job_recommender.py:390-413`). -/
def calculate_java_boost (job_text : Text) (subdomain : Text) : ℚ :=
  let java_tiers : List (List Text × ℚ) :=
    [([s "java", s "spring", s "spring boot", s "hibernate"], 0.15),
     ([s "maven", s "gradle", s "junit", s "mockito"], 0.10),
     ([s "ant", s "intellij", s "eclipse", s "enterprise java"], 0.05)]
  let boost : ℚ := 0
  let boost :=
    if subdomain = s "spring_developer" && substr (s "spring") job_text then boost + 0.3
    else if subdomain = s "hibernate_developer" && substr (s "hibernate") job_text then boost + 0.3
    else boost
  addKeywordBoosts job_text java_tiers boost

/-- The `calculate_cybersecurity_boost` function (`job_recommender.py:415-440`). -/
def calculate_cybersecurity_boost (job_text : Text) (subdomain : Text) : ℚ :=
  let security_tiers : List (List Text × ℚ) :=
    [([s "security", s "cybersecurity", s "penetration", s "ethical hacker", s "vulnerability"], 0.15),
     ([s "incident response", s "soc", s "siem", s "firewall", s "ids", s "ips"], 0.10),
     ([s "forensics", s "compliance", s "audit", s "risk", s "wireshark", s "nmap"], 0.05)]
  let boost : ℚ := 0
  let boost :=
    if subdomain = s "penetration_tester" &&
        (substr (s "penetration") job_text || substr (s "ethical hacker") job_text) then
      boost + 0.3
    else if subdomain = s "incident_response" && substr (s "incident response") job_text then
      boost + 0.3
    else if subdomain = s "soc_analyst" && substr (s "soc") job_text then boost + 0.3
    else boost
  addKeywordBoosts job_text security_tiers boost

/-- The `calculate_data_science_boost` function (`job_recommender.py:442-467`). -/
def calculate_data_science_boost (job_text : Text) (subdomain : Text) : ℚ :=
  let ds_tiers : List (List Text × ℚ) :=
    [([s "data scientist", s "machine learning", s "ml", s "deep learning", s "ai"], 0.15),
     ([s "analytics", s "statistics", s "predictive modeling", s "data visualization"], 0.10),
     ([s "python", s "r", s "sql", s "pandas", s "numpy", s "scikit-learn"], 0.05)]
  let boost : ℚ := 0
  let boost :=
    if subdomain = s "ml_engineer" &&
        (substr (s "machine learning") job_text || substr (s "ml") job_text) then boost + 0.3
    else if subdomain = s "nlp_engineer" && substr (s "nlp") job_text then boost + 0.3
    else if subdomain = s "computer_vision_engineer" && substr (s "computer vision") job_text then
      boost + 0.3
    else boost
  addKeywordBoosts job_text ds_tiers boost

/-- The `calculate_devops_boost` function (`job_recommender.py:469-494`). -/
def calculate_devops_boost (job_text : Text) (subdomain : Text) : ℚ :=
  let devops_tiers : List (List Text × ℚ) :=
    [([s "devops", s "ci/cd", s "continuous integration", s "continuous deployment"], 0.15),
     ([s "docker", s "kubernetes", s "jenkins", s "gitlab", s "terraform"], 0.10),
     ([s "monitoring", s "logging", s "prometheus", s "grafana", s "ansible"], 0.05)]
  let boost : ℚ := 0
  let boost :=
    if subdomain = s "ci_cd_engineer" &&
        (substr (s "ci/cd") job_text || substr (s "continuous") job_text) then boost + 0.3
    else if subdomain = s "kubernetes_engineer" && substr (s "kubernetes") job_text then
      boost + 0.3
    else if subdomain = s "infrastructure_engineer" && substr (s "terraform") job_text then
      boost + 0.3
    else boost
  addKeywordBoosts job_text devops_tiers boost

/-- The `calculate_cloud_boost` function (`job_recommender.py:496-521`). -/
def calculate_cloud_boost (job_text : Text) (subdomain : Text) : ℚ :=
  let cloud_tiers : List (List Text × ℚ) :=
    [([s "cloud engineer", s "cloud architect", s "aws engineer", s "azure engineer"], 0.15),
     ([s "ec2", s "s3", s "lambda", s "rds", s "vpc", s "iam", s "cloudformation"], 0.10),
     ([s "serverless", s "microservices", s "kubernetes", s "docker"], 0.05)]
  let boost : ℚ := 0
  let boost :=
    if subdomain = s "aws_engineer" && substr (s "aws") job_text then boost + 0.3
    else if subdomain = s "azure_engineer" && substr (s "azure") job_text then boost + 0.3
    else if subdomain = s "gcp_engineer" && substr (s "gcp") job_text then boost + 0.3
    else boost
  addKeywordBoosts job_text cloud_tiers boost

/-- The `calculate_advanced_domain_boost` function (`job_recommender.py:288-318`):
lowercase the posting text, dispatch on the primary-domain name, then cap the
total boost at 0.5. -/
def calculate_advanced_domain_boost (job_text : Text) (primary_domain : Text)
    (subdomain : Text) : ℚ :=
  let job_lower := lower job_text
  let boost : ℚ :=
    if primary_domain = s "javascript_fullstack" then
      calculate_javascript_boost job_lower subdomain
    else if primary_domain = s "python_development" then
      calculate_python_boost job_lower subdomain
    else if primary_domain = s "java_development" then
      calculate_java_boost job_lower subdomain
    else if primary_domain = s "cybersecurity" then
      calculate_cybersecurity_boost job_lower subdomain
    else if primary_domain = s "data_science" then
      calculate_data_science_boost job_lower subdomain
    else if primary_domain = s "devops" then
      calculate_devops_boost job_lower subdomain
    else if primary_domain = s "cloud_engineering" then
      calculate_cloud_boost job_lower subdomain
    else 0
  min boost 0.5

/-- A job-posting record. The seven base fields model `job.get(key, '')` reads
of the posting dict; the five `Option` fields model the score keys that
`rank_jobs_domain_aware` writes into the same dict (absent before ranking). -/
structure Job where
  title : Text := []
  company_name : Text := []
  description : Text := []
  location : Text := []
  via : Text := []
  share_link : Text := []
  link : Text := []
  similarity : Option ℚ := none
  base_similarity : Option ℚ := none
  domain_boost : Option ℚ := none
  primary_domain : Option Text := none
  subdomain : Option Text := none
deriving DecidableEq

/-- The composite posting text `f"{title} {company_name} {description}"`
(`job_recommender.py:268`). -/
def jobText (j : Job) : Text :=
  j.title ++ s " " ++ j.company_name ++ s " " ++ j.description

/-- In-place augmentation of one posting dict inside the ranking loop
(`job_recommender.py:268-283`). `sim` is the external embedding similarity
`cos_sim(encode(resume_text), encode(job_text))`. -/
def augmentJob (sim : Text → Text → ℚ) (resume_text : Text) (primary_domain : Text)
    (subdomain : Text) (job : Job) : Job :=
  let job_text := jobText job
  let base_sim := sim resume_text job_text
  let domain_boost := calculate_advanced_domain_boost job_text primary_domain subdomain
  let final_similarity := min (base_sim + domain_boost) 1.0
  { job with
    similarity := some final_similarity
    base_similarity := some base_sim
    domain_boost := some domain_boost
    primary_domain := some primary_domain
    subdomain := some subdomain }

/-- Sort order of `ranked.sort(key=lambda x: x["similarity"], reverse=True)`
(`job_recommender.py:285`): descending by the similarity key (every ranked
record has the key set; `getD` only mirrors the dict read). -/
def rankRel (a b : Job) : Prop := b.similarity.getD 0 ≤ a.similarity.getD 0

instance : DecidableRel rankRel := fun a b =>
  inferInstanceAs (Decidable (b.similarity.getD 0 ≤ a.similarity.getD 0))

instance : IsTotal Job rankRel := ⟨fun a b => le_total _ _⟩

instance : IsTrans Job rankRel := ⟨fun _ _ _ h1 h2 => le_trans h2 h1⟩

/-- The `rank_jobs_domain_aware` function (`job_recommender.py:255-286`).
Returns the sorted `ranked` list together with the post-call state of the
input postings (the same mutated records, in input order). Python's stable
`list.sort` with `reverse=True` is insertion sort with `rankRel`. -/
def rank_jobs_domain_aware (sim : Text → Text → ℚ) (resume_text : Text)
    (jobs : List Job) (resume_analysis : ResumeAnalysis) : List Job × List Job :=
  let primary_domain := resume_analysis.primary_domain
  let subdomain := resume_analysis.subdomain
  let ranked := jobs.map (augmentJob sim resume_text primary_domain subdomain)
  (ranked.insertionSort rankRel, ranked)

/-- The `section_patterns` dict of `AdvancedResumeParser`
(`advanced_resume_parser.py:78-88`): each pattern `(?i)(w1|w2|...)` used with
`re.search` is a case-insensitive substring test for any of its words. -/
def section_patterns : List (Text × List Text) :=
  [(s "contact", [s "contact", s "personal", s "info", s "details"]),
   (s "summary", [s "summary", s "objective", s "profile", s "about"]),
   (s "experience", [s "experience", s "work", s "employment", s "career", s "professional"]),
   (s "education", [s "education", s "academic", s "qualification", s "degree"]),
   (s "skills", [s "skills", s "technologies", s "tools", s "languages", s "competencies"]),
   (s "projects", [s "projects", s "portfolio", s "works", s "applications"]),
   (s "certifications", [s "certifications", s "certificates", s "credentials"]),
   (s "languages", [s "languages", s "spoken", s "fluent"]),
   (s "achievements", [s "achievements", s "awards", s "recognition"])]

/-- Test of one section pattern against a line (`advanced_resume_parser.py:172`):
`re.search('(?i)(w1|w2|...)', line, re.IGNORECASE)` succeeds iff some word
occurs in the line, case-insensitively. -/
def patMatches (ws : List Text) (line : Text) : Bool :=
  ws.any (fun w => substr (lower w) (lower line))

/-- The first section pattern matching a line, in dict order
(`advanced_resume_parser.py:171-178`). -/
def findPat (line : Text) : Option Text :=
  (section_patterns.find? (fun p => patMatches p.2 line)).map (fun p => p.1)

/-- Python dict assignment `m[k] = v`: overwrite in place if the key exists,
else append (insertion order preserved). -/
def dictSet (m : List (Text × Text)) (k v : Text) : List (Text × Text) :=
  match m with
  | [] => [(k, v)]
  | (k', v') :: rest => if k' = k then (k, v) :: rest else (k', v') :: dictSet rest k v

/-- The line loop of `AdvancedResumeParser._extract_sections`
(`advanced_resume_parser.py:164-181`). State: section map, current section
tag, buffered content lines. -/
def extractLoop : List Text → List (Text × Text) → Text → List Text →
    List (Text × Text) × Text × List Text
  | [], sections, cur, content => (sections, cur, content)
  | line :: rest, sections, cur, content =>
    let line := stripT line
    if line = [] then
      extractLoop rest sections cur content
    else
      match findPat line with
      | some name =>
        let sections :=
          if cur ≠ s "general" then dictSet sections cur (joinNL content) else sections
        extractLoop rest sections name []
      | none => extractLoop rest sections cur (content ++ [line])

/-- The `AdvancedResumeParser._extract_sections` function
(`advanced_resume_parser.py:157-187`). -/
def extract_sections (text : Text) : List (Text × Text) :=
  let st := extractLoop (text.splitOn '\n') [] (s "general") []
  if st.2.2 ≠ [] then dictSet st.1 st.2.1 (joinNL st.2.2) else st.1

/-- Regular-expression abstract syntax, covering exactly the constructs used by
the parser's patterns: character classes, literals (case-sensitive and
case-insensitive), concatenation, alternation, optional, greedy and lazy
at-least-`n` repetition, word boundary, and capturing group. -/
inductive RE where
  | cls (p : Char → Bool)
  | lit (w : Text)
  | litCI (w : Text)
  | cat (a b : RE)
  | alt (a b : RE)
  | opt (r : RE)
  | rep (r : RE) (n : Nat)
  | repL (r : RE) (n : Nat)
  | wb
  | grp (r : RE)

/-- Python `\w`: word character (modelled on the ASCII alphabet). -/
def wordChar (c : Char) : Bool := c.isAlphanum || c == '_'

/-- Word boundary `\b` between the previous character and the next one. -/
def isBoundary (pr nx : Option Char) : Bool :=
  (match pr with | some c => wordChar c | none => false) !=
    (match nx with | some c => wordChar c | none => false)

/-- The character preceding position `n` of `t` (or `pr` when `n = 0`). -/
def prevAfter (pr : Option Char) (t : Text) (n : Nat) : Option Char :=
  if n == 0 then pr else t[n - 1]?

/-- Backtracking matcher: all ways the expression can match a prefix of `t`
(given previous character `pr` for word boundaries), as pairs of consumed
length and captured groups, in Python's backtracking preference order (greedy
repetition tries longer first, lazy shorter first, alternation left first).
The recursion is structural on `fuel`, which bounds the call depth; callers
supply `reFuel t = 64 * (t.length + 1)`, which can never be exhausted here
because every pattern below nests fewer than 64 constructors and every
repetition iteration consumes at least one character. -/
def reMatch : Nat → RE → Option Char → Text → List (Nat × List Text)
  | 0, _, _, _ => []
  | _ + 1, .cls p, _, t =>
    match t with
    | [] => []
    | c :: _ => if p c then [(1, [])] else []
  | _ + 1, .lit w, _, t => if prefixMatch w t then [(w.length, [])] else []
  | _ + 1, .litCI w, _, t =>
    if prefixMatch (lower w) (lower t) then [(w.length, [])] else []
  | f + 1, .cat a b, pr, t =>
    (reMatch f a pr t).flatMap (fun p1 =>
      (reMatch f b (prevAfter pr t p1.1) (t.drop p1.1)).map
        (fun p2 => (p1.1 + p2.1, p1.2 ++ p2.2)))
  | f + 1, .alt a b, pr, t => reMatch f a pr t ++ reMatch f b pr t
  | f + 1, .opt r, pr, t => reMatch f r pr t ++ [(0, [])]
  | _ + 1, .wb, pr, t => if isBoundary pr t.head? then [(0, [])] else []
  | f + 1, .grp r, pr, t => (reMatch f r pr t).map (fun p => (p.1, p.2 ++ [t.take p.1]))
  | f + 1, .rep r n, pr, t =>
    let conts := (reMatch f r pr t).flatMap (fun p =>
      if p.1 == 0 then []
      else
        (reMatch f (.rep r (n - 1)) (prevAfter pr t p.1) (t.drop p.1)).map
          (fun q => (p.1 + q.1, p.2 ++ q.2)))
    if n == 0 then conts ++ [(0, [])] else conts
  | f + 1, .repL r n, pr, t =>
    let conts := (reMatch f r pr t).flatMap (fun p =>
      if p.1 == 0 then []
      else
        (reMatch f (.repL r (n - 1)) (prevAfter pr t p.1) (t.drop p.1)).map
          (fun q => (p.1 + q.1, p.2 ++ q.2)))
    if n == 0 then (0, []) :: conts else conts

/-- Fuel budget for the matcher on text `t`: far above the call depth any of
the patterns below can reach. -/
def reFuel (t : Text) : Nat := 64 * (t.length + 1)

/-- Leftmost search: first position (scanning left to right) where the
expression matches; returns the suffix there plus match length and captures. -/
def reSearchFrom (r : RE) (pr : Option Char) (t : Text) :
    Option (Text × Nat × List Text) :=
  match reMatch (reFuel t) r pr t with
  | p :: _ => some (t, p.1, p.2)
  | [] =>
    match t with
    | [] => none
    | c :: rest => reSearchFrom r (some c) rest

/-- Python `re.search(r, t)`: the matched text (`group()`) and the captures. -/
def re_search (r : RE) (t : Text) : Option (Text × List Text) :=
  (reSearchFrom r none t).map (fun p => (p.1.take p.2.1, p.2.2))

/-- Python `re.match(r, t)` (also `re.search` of a `^`-anchored pattern):
the match must start at position 0. -/
def re_match0 (r : RE) (t : Text) : Option (Text × List Text) :=
  (reMatch (reFuel t) r none t).head?.map (fun p => (t.take p.1, p.2))

/-- Python `re.findall`: successive non-overlapping leftmost matches, a
zero-width match advancing by one character. -/
def reFindAllFrom (fuel : Nat) (r : RE) (pr : Option Char) (t : Text) :
    List (Text × List Text) :=
  match fuel with
  | 0 => []
  | f + 1 =>
    match reSearchFrom r pr t with
    | none => []
    | some (suf, n, cs) =>
      let whole := suf.take n
      if n == 0 then
        (whole, cs) ::
          (match suf with
           | [] => []
           | c :: rest => reFindAllFrom f r (some c) rest)
      else (whole, cs) :: reFindAllFrom f r (suf[n - 1]?) (suf.drop n)

/-- Python `re.findall(r, t)`. -/
def re_findall (r : RE) (t : Text) : List (Text × List Text) :=
  reFindAllFrom (t.length + 1) r none t

/-- Python `re.split(r'[,;]', t)` style splitting at any of the given
separator characters. -/
def splitAnyOf (seps : List Char) : Text → List Text
  | [] => [[]]
  | c :: cs =>
    let r := splitAnyOf seps cs
    if seps.contains c then [] :: r
    else
      match r with
      | [] => [[c]]
      | x :: xs => (c :: x) :: xs

/-- Does the expression match starting exactly at the head of `t`? -/
def matchesAt (r : RE) (pr : Option Char) (t : Text) : Bool :=
  !(reMatch (reFuel t) r pr t).isEmpty

/-- Zero-width multiline split positions of `re.split(r'(?=^...)', t, re.MULTILINE)`:
every line start whose suffix matches the look-ahead pattern. -/
def splitPositions (r : RE) (t : Text) : List Nat :=
  (List.range t.length).filter (fun i =>
    (i == 0 || t[i - 1]? == some '\n') &&
      matchesAt r (if i == 0 then none else t[i - 1]?) (t.drop i))

/-- Cut `t` at the given ascending positions, Python `re.split` style (a split
at position 0 produces a leading empty piece). -/
def splitAt1 (t : Text) (ps : List Nat) : List Text :=
  let bounds := 0 :: (ps ++ [t.length])
  (bounds.zip bounds.tail).map (fun p => ((t.drop p.1).take (p.2 - p.1)))

/-- Python `re.split(r'(?=^pat)', t, flags=re.MULTILINE)`. -/
def re_split_lines (r : RE) (t : Text) : List Text := splitAt1 t (splitPositions r t)

/-- The dash character class `[-â€“â€”]` as it literally appears in
`advanced_resume_parser.py` (the UTF-8 mojibake of `[-–—]`); its distinct
characters are `-`, `â`, `€`, `“`, `”`. -/
def dashC (c : Char) : Bool := (s "-â€“”").contains c

/-- The bullet marker `â€˘` tested by `line.startswith(...)`
(`advanced_resume_parser.py:302`), again transcribed as the mojibake bytes of
`•` appear in the source file. -/
def bulletMark : Text := s "â€˘"

/-- Whitespace character class `\s`. -/
def wsC (c : Char) : Bool := c.isWhitespace

/-- The email pattern `\b[A-Za-z0-9._%+-]+@[A-Za-z0-9.-]+\.[A-Z|a-z]{2,}\b`
(`advanced_resume_parser.py:194`). -/
def emailRE : RE :=
  .cat .wb (.cat (.rep (.cls (fun c => c.isAlphanum || (s "._%+-").contains c)) 1)
    (.cat (.lit (s "@")) (.cat (.rep (.cls (fun c => c.isAlphanum || (s ".-").contains c)) 1)
      (.cat (.lit (s ".")) (.cat (.rep (.cls (fun c => c.isAlpha || c == '|')) 2) .wb)))))

/-- The phone pattern `(\+?[\d\s\-\(\)]{10,})` (`advanced_resume_parser.py:200`). -/
def phoneRE : RE :=
  .grp (.cat (.opt (.lit (s "+")))
    (.rep (.cls (fun c => c.isDigit || c.isWhitespace || (s "-()").contains c)) 10))

/-- The LinkedIn pattern `(?:linkedin\.com|linkedin)[\s\:]*([^\s\n]+)`,
case-insensitive (`advanced_resume_parser.py:206`). -/
def linkedinRE : RE :=
  .cat (.alt (.litCI (s "linkedin.com")) (.litCI (s "linkedin")))
    (.cat (.rep (.cls (fun c => c.isWhitespace || c == ':')) 0)
      (.grp (.rep (.cls (fun c => !c.isWhitespace)) 1)))

/-- The GitHub pattern `(?:github\.com|github)[\s\:]*([^\s\n]+)`,
case-insensitive (`advanced_resume_parser.py:212`). -/
def githubRE : RE :=
  .cat (.alt (.litCI (s "github.com")) (.litCI (s "github")))
    (.cat (.rep (.cls (fun c => c.isWhitespace || c == ':')) 0)
      (.grp (.rep (.cls (fun c => !c.isWhitespace)) 1)))

/-- First location pattern `(?:location|address|city|state)[\s\:]*([^\n]+)`,
searched case-insensitively (`advanced_resume_parser.py:219`). -/
def locRE1 : RE :=
  .cat (.alt (.litCI (s "location")) (.alt (.litCI (s "address"))
      (.alt (.litCI (s "city")) (.litCI (s "state")))))
    (.cat (.rep (.cls (fun c => c.isWhitespace || c == ':')) 0)
      (.grp (.rep (.cls (fun c => c != '\n')) 1)))

/-- Second location pattern `([A-Z][a-z]+(?:[\s,]+[A-Z][a-z]+)*,\s*[A-Z]{2})`
(`advanced_resume_parser.py:220`); under `re.IGNORECASE` the letter classes
all collapse to "any letter". -/
def locRE2 : RE :=
  .grp (.cat (.cls Char.isAlpha) (.cat (.rep (.cls Char.isAlpha) 1)
    (.cat (.rep (.cat (.rep (.cls (fun c => c.isWhitespace || c == ',')) 1)
        (.cat (.cls Char.isAlpha) (.rep (.cls Char.isAlpha) 1))) 0)
      (.cat (.lit (s ",")) (.cat (.rep (.cls wsC) 0)
        (.cat (.cls Char.isAlpha) (.cls Char.isAlpha)))))))

/-- Third location pattern `([A-Z][a-z]+(?:[\s,]+[A-Z][a-z]+)*,\s*[A-Z][a-z]+)`
(`advanced_resume_parser.py:221`), again with `re.IGNORECASE`. -/
def locRE3 : RE :=
  .grp (.cat (.cls Char.isAlpha) (.cat (.rep (.cls Char.isAlpha) 1)
    (.cat (.rep (.cat (.rep (.cls (fun c => c.isWhitespace || c == ',')) 1)
        (.cat (.cls Char.isAlpha) (.rep (.cls Char.isAlpha) 1))) 0)
      (.cat (.lit (s ",")) (.cat (.rep (.cls wsC) 0)
        (.cat (.cls Char.isAlpha) (.rep (.cls Char.isAlpha) 1)))))))

/-- The `ContactInfo` dataclass (`advanced_resume_parser.py:13-22`). -/
structure ContactInfo where
  name : Option Text := none
  email : Option Text := none
  phone : Option Text := none
  location : Option Text := none
  linkedin : Option Text := none
  github : Option Text := none
  portfolio : Option Text := none
deriving DecidableEq

/-- The `AdvancedResumeParser._parse_contact_info` function
(`advanced_resume_parser.py:189-230`). `name` and `portfolio` are never set. -/
def parse_contact_info (text : Text) : ContactInfo :=
  let email := (re_search emailRE text).map (fun p => p.1)
  let phone := (re_search phoneRE text).map (fun p => stripT p.1)
  let linkedin := (re_search linkedinRE text).map (fun p => p.2.headD [])
  let github := (re_search githubRE text).map (fun p => p.2.headD [])
  let location :=
    match re_search locRE1 text with
    | some p => some (stripT (p.2.headD []))
    | none =>
      match re_search locRE2 text with
      | some p => some (stripT (p.2.headD []))
      | none => (re_search locRE3 text).map (fun p => stripT (p.2.headD []))
  { email := email, phone := phone, linkedin := linkedin, github := github,
    location := location }

/-- The `AdvancedResumeParser._parse_summary` function
(`advanced_resume_parser.py:232-241`). -/
def parse_summary (text : Text) : Option Text :=
  if text = [] then none
  else
    match text.splitOn '.' with
    | [] => none
    | first :: rest =>
      some (if 20 < first.length then first
            else List.intercalate (s ". ") ((first :: rest).take 2))

/-- The `skill_categories` dict of `AdvancedResumeParser`
(`advanced_resume_parser.py:90-117`). -/
def skill_categories : List (Text × List Text) :=
  [(s "programming_languages", [s "python", s "javascript", s "java", s "c++", s "c#", s "php", s "ruby", s "go", s "rust", s "swift", s "kotlin", s "scala", s "r", s "matlab", s "perl", s "bash", s "powershell", s "typescript"]),
   (s "frameworks", [s "react", s "angular", s "vue", s "node.js", s "express", s "django", s "flask", s "spring", s "laravel", s "asp.net", s "tensorflow", s "pytorch", s "scikit-learn", s "pandas", s "numpy"]),
   (s "databases", [s "mysql", s "postgresql", s "mongodb", s "redis", s "oracle", s "sql server", s "sqlite", s "cassandra", s "dynamodb", s "elasticsearch", s "neo4j"]),
   (s "cloud_platforms", [s "aws", s "azure", s "gcp", s "heroku", s "digitalocean", s "vercel", s "netlify", s "firebase"]),
   (s "devops_tools", [s "docker", s "kubernetes", s "jenkins", s "gitlab", s "github actions", s "terraform", s "ansible", s "chef", s "puppet", s "vagrant"]),
   (s "security_tools", [s "wireshark", s "nmap", s "metasploit", s "burp suite", s "nessus", s "kali linux", s "splunk", s "elk stack", s "qradar", s "fireeye"]),
   (s "testing_tools", [s "selenium", s "cypress", s "jest", s "mocha", s "junit", s "pytest", s "postman", s "soapui"])]

/-- The capitalized-token pattern `\b[A-Z][a-z]+(?:\s+[A-Z][a-z]+)*\b`
(`advanced_resume_parser.py:259`). -/
def capTokRE : RE :=
  .cat .wb (.cat (.cls Char.isUpper) (.cat (.rep (.cls Char.isLower) 1)
    (.cat (.rep (.cat (.rep (.cls wsC) 1)
        (.cat (.cls Char.isUpper) (.rep (.cls Char.isLower) 1))) 0) .wb)))

/-- The `AdvancedResumeParser._parse_skills` function
(`advanced_resume_parser.py:243-267`): categorized substring matches over
skills-section text plus full text, an `other` bucket of capitalized tokens
not already classified, and removal of empty categories. -/
def parse_skills (skills_text full_text : Text) : List (Text × List Text) :=
  let search_text := skills_text ++ s " " ++ full_text
  let stl := lower search_text
  let base := skill_categories.map
    (fun cat => (cat.1, cat.2.filter (fun sk => substr (lower sk) stl)))
  let additional := (re_findall capTokRE search_text).map (fun p => p.1)
  let others := additional.foldl
    (fun os tok =>
      if 2 < tok.length &&
          !(((base.map Prod.snd).flatten ++ os).map lower).contains (lower tok) then
        os ++ [tok]
      else os)
    []
  (base ++ [(s "other", others)]).filter (fun p => !p.2.isEmpty)

/-- The entry-splitting look-ahead `(?=^[A-Z][^:]*\s*[-â€“â€”]\s*[A-Z])` used by
experience and education parsing (`advanced_resume_parser.py:277,337`). -/
def entryHeadRE : RE :=
  .cat (.cls Char.isUpper) (.cat (.rep (.cls (fun c => c != ':')) 0)
    (.cat (.rep (.cls wsC) 0) (.cat (.cls dashC)
      (.cat (.rep (.cls wsC) 0) (.cls Char.isUpper)))))

/-- The title/company pattern `^([^:]+?)\s*[-â€“â€”]\s*([^\n]+)`
(`advanced_resume_parser.py:284`), also used for education and the first
certification alternative. -/
def tcRE : RE :=
  .cat (.grp (.repL (.cls (fun c => c != ':')) 1))
    (.cat (.rep (.cls wsC) 0) (.cat (.cls dashC)
      (.cat (.rep (.cls wsC) 0) (.grp (.rep (.cls (fun c => c != '\n')) 1)))))

/-- The duration pattern `(\d{4}\s*[-â€“â€”]\s*(?:present|\d{4}|\w+))`
(`advanced_resume_parser.py:292`). -/
def durRE : RE :=
  .grp (.cat (.cls Char.isDigit) (.cat (.cls Char.isDigit)
    (.cat (.cls Char.isDigit) (.cat (.cls Char.isDigit)
      (.cat (.rep (.cls wsC) 0) (.cat (.cls dashC) (.cat (.rep (.cls wsC) 0)
        (.alt (.lit (s "present"))
          (.alt (.cat (.cls Char.isDigit) (.cat (.cls Char.isDigit)
              (.cat (.cls Char.isDigit) (.cls Char.isDigit))))
            (.rep (.cls wordChar) 1))))))))))

/-- The `Experience` dataclass (`advanced_resume_parser.py:33-41`). -/
structure Experience where
  title : Text
  company : Text
  duration : Text
  description : List Text
  technologies : List Text
  achievements : List Text
deriving DecidableEq

/-- Description-line collection inside one experience entry
(`advanced_resume_parser.py:297-305`): stripped non-empty lines that are
neither a title/company header nor a duration, bullets stripped of their
first character. -/
def descriptionLines (entry : Text) : List Text :=
  (entry.splitOn '\n').foldl
    (fun acc line =>
      let line := stripT line
      if line ≠ [] ∧ re_match0 tcRE line = none ∧ re_match0 durRE line = none then
        if prefixMatch bulletMark line || prefixMatch (s "-") line then
          acc ++ [stripT (line.drop 1)]
        else acc ++ [line]
      else acc)
    []

/-- Technology harvesting over description lines
(`advanced_resume_parser.py:307-313`): every taxonomy term occurring
case-insensitively in some line. `list(set(...))` is modelled as
first-occurrence deduplication (Python's set iteration order is
unspecified; no claim depends on it). -/
def harvestTech (lines : List Text) : List Text :=
  (lines.flatMap (fun line =>
    skill_categories.flatMap (fun cat =>
      cat.2.filter (fun tech => substr (lower tech) (lower line))))).dedup

/-- Achievement-verb filter (`advanced_resume_parser.py:316`). -/
def achievementLines (lines : List Text) : List Text :=
  lines.filter (fun line =>
    [s "achieved", s "improved", s "increased", s "reduced", s "developed",
     s "implemented"].any (fun w => substr w (lower line)))

/-- The `AdvancedResumeParser._parse_experience` function
(`advanced_resume_parser.py:269-327`). -/
def parse_experience (text : Text) : List Experience :=
  if text = [] then []
  else
    (re_split_lines entryHeadRE text).foldl
      (fun acc entry =>
        if stripT entry = [] then acc
        else
          match re_match0 tcRE entry with
          | none => acc
          | some p =>
            let title := stripT (p.2.headD [])
            let company := stripT ((p.2.drop 1).headD [])
            let duration :=
              match re_search durRE entry with
              | some q => q.2.headD []
              | none => s "Duration not specified"
            let dls := descriptionLines entry
            acc ++ [{ title := title, company := company, duration := duration,
                      description := dls, technologies := harvestTech dls,
                      achievements := achievementLines dls }])
      []

/-- The year pattern `(\d{4})` (`advanced_resume_parser.py:352,459`). -/
def yearRE : RE :=
  .grp (.cat (.cls Char.isDigit) (.cat (.cls Char.isDigit)
    (.cat (.cls Char.isDigit) (.cls Char.isDigit))))

/-- The GPA pattern `GPA[:\s]*([\d\.]+)`, case-insensitive
(`advanced_resume_parser.py:357`). -/
def gpaRE : RE :=
  .cat (.litCI (s "GPA")) (.cat (.rep (.cls (fun c => c == ':' || c.isWhitespace)) 0)
    (.grp (.rep (.cls (fun c => c.isDigit || c == '.')) 1)))

/-- The courses pattern `(?:courses?|subjects?)[:\s]*(.+)`, case-insensitive
(`advanced_resume_parser.py:362`). -/
def coursesRE : RE :=
  .cat (.alt (.cat (.litCI (s "course")) (.opt (.litCI (s "s"))))
      (.cat (.litCI (s "subject")) (.opt (.litCI (s "s")))))
    (.cat (.rep (.cls (fun c => c == ':' || c.isWhitespace)) 0)
      (.grp (.rep (.cls (fun c => c != '\n')) 1)))

/-- The `Education` dataclass (`advanced_resume_parser.py:24-31`). The source
passes a (possibly empty) list for `relevant_courses`. -/
structure Education where
  degree : Text
  institution : Text
  year : Option Text := none
  gpa : Option Text := none
  relevant_courses : List Text := []
deriving DecidableEq

/-- The `AdvancedResumeParser._parse_education` function
(`advanced_resume_parser.py:329-377`). -/
def parse_education (text : Text) : List Education :=
  if text = [] then []
  else
    (re_split_lines entryHeadRE text).foldl
      (fun acc entry =>
        if stripT entry = [] then acc
        else
          match re_match0 tcRE entry with
          | none => acc
          | some p =>
            let degree := stripT (p.2.headD [])
            let institution := stripT ((p.2.drop 1).headD [])
            let year := (re_search yearRE entry).map (fun q => q.2.headD [])
            let gpa := (re_search gpaRE entry).map (fun q => q.2.headD [])
            let courses :=
              match re_search coursesRE entry with
              | some q => (splitAnyOf [',', ';'] (q.2.headD [])).map stripT
              | none => []
            acc ++ [{ degree := degree, institution := institution, year := year,
                      gpa := gpa, relevant_courses := courses }])
      []

/-- Project entry-splitting look-ahead `(?=^[A-Z][^:]*\s*[-â€“â€”]?\s*[A-Z])`
(`advanced_resume_parser.py:387`): like `entryHeadRE` but the dash is
optional. -/
def projHeadRE : RE :=
  .cat (.cls Char.isUpper) (.cat (.rep (.cls (fun c => c != ':')) 0)
    (.cat (.rep (.cls wsC) 0) (.cat (.opt (.cls dashC))
      (.cat (.rep (.cls wsC) 0) (.cls Char.isUpper)))))

/-- The project name/description pattern `^([^:]+?)\s*[-â€“â€”]?\s*([^\n]+)`
(`advanced_resume_parser.py:394`). -/
def pnRE : RE :=
  .cat (.grp (.repL (.cls (fun c => c != ':')) 1))
    (.cat (.rep (.cls wsC) 0) (.cat (.opt (.cls dashC))
      (.cat (.rep (.cls wsC) 0) (.grp (.rep (.cls (fun c => c != '\n')) 1)))))

/-- The URL pattern `(https?://[^\s]+)` (`advanced_resume_parser.py:409`). -/
def urlRE : RE :=
  .grp (.cat (.lit (s "http")) (.cat (.opt (.lit (s "s")))
    (.cat (.lit (s "://")) (.rep (.cls (fun c => !c.isWhitespace)) 1))))

/-- The `Project` dataclass (`advanced_resume_parser.py:43-50`). -/
structure Project where
  name : Text
  description : Text
  technologies : List Text
  url : Option Text := none
  highlights : List Text := []
deriving DecidableEq

/-- The `AdvancedResumeParser._parse_projects` function
(`advanced_resume_parser.py:379-429`). -/
def parse_projects (text : Text) : List Project :=
  if text = [] then []
  else
    (re_split_lines projHeadRE text).foldl
      (fun acc entry =>
        if stripT entry = [] then acc
        else
          match re_match0 pnRE entry with
          | none => acc
          | some p =>
            let name := stripT (p.2.headD [])
            let description := stripT ((p.2.drop 1).headD [])
            let technologies :=
              (skill_categories.flatMap (fun cat =>
                cat.2.filter (fun tech => substr (lower tech) (lower entry)))).dedup
            let url := (re_search urlRE entry).map (fun q => q.2.headD [])
            let highlights := (entry.splitOn '\n').foldl
              (fun hs line =>
                let line := stripT line
                if line ≠ [] ∧
                    (prefixMatch bulletMark line || prefixMatch (s "-") line) = true ∧
                    10 < line.length then
                  hs ++ [stripT (line.drop 1)]
                else hs)
              []
            acc ++ [{ name := name, description := description,
                      technologies := technologies, url := url,
                      highlights := highlights }])
      []

/-- Second certification alternative
`([A-Z][A-Z\s]+(?:Certified|Certification|Certificate))\s*[-â€“â€”]?\s*([^\n]+)`
(`advanced_resume_parser.py:448`). -/
def certRE2 : RE :=
  .cat (.grp (.cat (.cls Char.isUpper)
      (.cat (.rep (.cls (fun c => c.isUpper || c.isWhitespace)) 1)
        (.alt (.lit (s "Certified"))
          (.alt (.lit (s "Certification")) (.lit (s "Certificate")))))))
    (.cat (.rep (.cls wsC) 0) (.cat (.opt (.cls dashC))
      (.cat (.rep (.cls wsC) 0) (.grp (.rep (.cls (fun c => c != '\n')) 1)))))

/-- Third certification alternative `([A-Z][A-Z\s]+)\s*[-â€“â€”]?\s*([^\n]+)`
(`advanced_resume_parser.py:449`). -/
def certRE3 : RE :=
  .cat (.grp (.cat (.cls Char.isUpper)
      (.rep (.cls (fun c => c.isUpper || c.isWhitespace)) 1)))
    (.cat (.rep (.cls wsC) 0) (.cat (.opt (.cls dashC))
      (.cat (.rep (.cls wsC) 0) (.grp (.rep (.cls (fun c => c != '\n')) 1)))))

/-- The `Certification` dataclass (`advanced_resume_parser.py:52-58`). -/
structure Certification where
  name : Text
  issuer : Text
  year : Option Text := none
  expiry : Option Text := none
deriving DecidableEq

/-- The `AdvancedResumeParser._parse_certifications` function
(`advanced_resume_parser.py:431-470`): per line, the first of three
alternative patterns wins (the first is `^`-anchored, the others are not). -/
def parse_certifications (text : Text) : List Certification :=
  if text = [] then []
  else
    (text.splitOn '\n').foldl
      (fun acc line =>
        let line := stripT line
        if line = [] then acc
        else
          let hit :=
            match re_match0 tcRE line with
            | some p => some p
            | none =>
              match re_search certRE2 line with
              | some p => some p
              | none => re_search certRE3 line
          match hit with
          | none => acc
          | some p =>
            let name := stripT (p.2.headD [])
            let issuer := stripT ((p.2.drop 1).headD [])
            let year := (re_search yearRE line).map (fun q => q.2.headD [])
            acc ++ [{ name := name, issuer := issuer, year := year }])
      []

/-- First language pattern
`(?:fluent|proficient|intermediate|basic)\s+in\s+([^,\n]+)`, case-insensitive
(`advanced_resume_parser.py:481`). -/
def langRE1 : RE :=
  .cat (.alt (.litCI (s "fluent")) (.alt (.litCI (s "proficient"))
      (.alt (.litCI (s "intermediate")) (.litCI (s "basic")))))
    (.cat (.rep (.cls wsC) 1) (.cat (.litCI (s "in")) (.cat (.rep (.cls wsC) 1)
      (.grp (.rep (.cls (fun c => c != ',' && c != '\n')) 1)))))

/-- Second language pattern
`([A-Z][a-z]+(?:\s+[A-Z][a-z]+)*)\s*[-â€“â€”]\s*(?:fluent|proficient|intermediate|basic)`,
case-insensitive, so the letter classes collapse to "any letter"
(`advanced_resume_parser.py:482`). -/
def langRE2 : RE :=
  .cat (.grp (.cat (.cls Char.isAlpha) (.cat (.rep (.cls Char.isAlpha) 1)
      (.rep (.cat (.rep (.cls wsC) 1)
        (.cat (.cls Char.isAlpha) (.rep (.cls Char.isAlpha) 1))) 0))))
    (.cat (.rep (.cls wsC) 0) (.cat (.cls dashC) (.cat (.rep (.cls wsC) 0)
      (.alt (.litCI (s "fluent")) (.alt (.litCI (s "proficient"))
        (.alt (.litCI (s "intermediate")) (.litCI (s "basic"))))))))

/-- Third language pattern
`([A-Z][a-z]+(?:\s+[A-Z][a-z]+)*)\s*[-â€“â€”]\s*[A-Z][a-z]+`, case-insensitive
(`advanced_resume_parser.py:483`). -/
def langRE3 : RE :=
  .cat (.grp (.cat (.cls Char.isAlpha) (.cat (.rep (.cls Char.isAlpha) 1)
      (.rep (.cat (.rep (.cls wsC) 1)
        (.cat (.cls Char.isAlpha) (.rep (.cls Char.isAlpha) 1))) 0))))
    (.cat (.rep (.cls wsC) 0) (.cat (.cls dashC) (.cat (.rep (.cls wsC) 0)
      (.cat (.cls Char.isAlpha) (.rep (.cls Char.isAlpha) 1)))))

/-- The `AdvancedResumeParser._parse_languages` function
(`advanced_resume_parser.py:472-494`): the stripped group-1 captures of all
three patterns are unioned, then deduplicated (again modelling
`list(set(...))` as first-occurrence deduplication). -/
def parse_languages (text : Text) : List Text :=
  if text = [] then []
  else
    (([langRE1, langRE2, langRE3].flatMap (fun r =>
      (re_findall r text).map (fun p => stripT (p.2.headD [])))).dedup)

/-- Allowed characters kept by `_preprocess_text`
(`advanced_resume_parser.py:154`): `\w`, `\s`, and the listed punctuation. -/
def allowedChar (c : Char) : Bool :=
  wordChar c || c.isWhitespace ||
    (s "-.,;:!?()[]\x7b\x7d@#$%&*+=|/\\").contains c

/-- Whitespace-run collapsing `re.sub(r'\s+', ' ', text)`
(`advanced_resume_parser.py:152`). -/
def collapseWsAux (prevSpace : Bool) : Text → Text
  | [] => []
  | c :: cs =>
    if c.isWhitespace then
      if prevSpace then collapseWsAux true cs else ' ' :: collapseWsAux true cs
    else c :: collapseWsAux false cs

/-- The `AdvancedResumeParser._preprocess_text` function
(`advanced_resume_parser.py:149-155`). -/
def preprocess_text (text : Text) : Text :=
  stripT ((collapseWsAux false text).filter allowedChar)

/-- The `ParsedResume` dataclass (`advanced_resume_parser.py:60-72`); the
skills dict is an insertion-ordered association list. -/
structure ParsedResume where
  contact_info : ContactInfo
  skills : List (Text × List Text)
  experience : List Experience
  education : List Education
  projects : List Project
  certifications : List Certification
  languages : List Text
  raw_text : Text
  parsed_sections : List (Text × Text)
  summary : Option Text := none
deriving DecidableEq

/-- Section read `sections.get(name, '')` (`advanced_resume_parser.py:127-134`). -/
def sectionGet (m : List (Text × Text)) (k : Text) : Text :=
  match m with
  | [] => []
  | (k', v) :: rest => if k' = k then v else sectionGet rest k

/-- The `AdvancedResumeParser.parse_resume` function
(`advanced_resume_parser.py:119-147`). -/
def parse_resume (text : Text) : ParsedResume :=
  let text := preprocess_text text
  let sections := extract_sections text
  { contact_info := parse_contact_info (sectionGet sections (s "contact"))
    summary := parse_summary (sectionGet sections (s "summary"))
    skills := parse_skills (sectionGet sections (s "skills")) text
    experience := parse_experience (sectionGet sections (s "experience"))
    education := parse_education (sectionGet sections (s "education"))
    projects := parse_projects (sectionGet sections (s "projects"))
    certifications := parse_certifications (sectionGet sections (s "certifications"))
    languages := parse_languages (sectionGet sections (s "languages"))
    raw_text := text
    parsed_sections := sections }

/-- A shared dummy analysis record with an unrecognized primary domain,
used as a concrete input in several evaluations. -/
def ra0 : ResumeAnalysis :=
  { primary_domain := s "x", primary_score := 0, subdomain := s "",
    all_domains := [], top_domains := [], resume_text_length := 0,
    analysis := ⟨false, false, false⟩ }

/-- A zero `DomainScore` record for concrete test inputs. -/
def dummyDS : DomainScore := ⟨0, [], [], [], [], [], 0, 0, 0, 0, 0⟩

/-- The inner keyword loop only ever adds a nonnegative bonus. -/
theorem foldl_tier_nonneg (jt : Text) (kws : List Text) (bonus : ℚ) (hb : 0 ≤ bonus) :
    ∀ acc : ℚ, 0 ≤ acc →
      0 ≤ kws.foldl (fun a kw => if substr kw jt then a + bonus else a) acc := by
  induction kws with
  | nil => intro acc h; exact h
  | cons k ks ih =>
    intro acc h
    simp only [List.foldl_cons]
    apply ih
    split
    · exact add_nonneg h hb
    · exact h

/-- `addKeywordBoosts` preserves nonnegativity when every tier bonus is
nonnegative. -/
theorem addKeywordBoosts_nonneg (jt : Text) (tiers : List (List Text × ℚ))
    (ht : ∀ p ∈ tiers, 0 ≤ p.2) :
    ∀ b : ℚ, 0 ≤ b → 0 ≤ addKeywordBoosts jt tiers b := by
  induction tiers with
  | nil => intro b h; exact h
  | cons t ts ih =>
    intro b h
    simp only [addKeywordBoosts, List.foldl_cons] at *
    exact ih (fun p hp => ht p (List.mem_cons_of_mem t hp))
      _ (foldl_tier_nonneg jt t.1 t.2 (ht t (List.mem_cons_self t ts)) b h)

/-- The JavaScript boost is nonnegative. -/
theorem javascript_boost_nonneg (jt sub : Text) : 0 ≤ calculate_javascript_boost jt sub := by
  simp only [calculate_javascript_boost]
  apply addKeywordBoosts_nonneg _ _ ?tiers
  case tiers =>
    intro p hp
    simp only [List.mem_cons, List.not_mem_nil, or_false] at hp
    rcases hp with rfl | rfl | rfl <;> norm_num
  split_ifs <;> norm_num

/-- The Python boost is nonnegative. -/
theorem python_boost_nonneg (jt sub : Text) : 0 ≤ calculate_python_boost jt sub := by
  simp only [calculate_python_boost]
  apply addKeywordBoosts_nonneg _ _ ?tiers
  case tiers =>
    intro p hp
    simp only [List.mem_cons, List.not_mem_nil, or_false] at hp
    rcases hp with rfl | rfl | rfl <;> norm_num
  split_ifs <;> norm_num

/-- The Java boost is nonnegative. -/
theorem java_boost_nonneg (jt sub : Text) : 0 ≤ calculate_java_boost jt sub := by
  simp only [calculate_java_boost]
  apply addKeywordBoosts_nonneg _ _ ?tiers
  case tiers =>
    intro p hp
    simp only [List.mem_cons, List.not_mem_nil, or_false] at hp
    rcases hp with rfl | rfl | rfl <;> norm_num
  split_ifs <;> norm_num

/-- The cybersecurity boost is nonnegative. -/
theorem cybersecurity_boost_nonneg (jt sub : Text) :
    0 ≤ calculate_cybersecurity_boost jt sub := by
  simp only [calculate_cybersecurity_boost]
  apply addKeywordBoosts_nonneg _ _ ?tiers
  case tiers =>
    intro p hp
    simp only [List.mem_cons, List.not_mem_nil, or_false] at hp
    rcases hp with rfl | rfl | rfl <;> norm_num
  split_ifs <;> norm_num

/-- The data-science boost is nonnegative. -/
theorem data_science_boost_nonneg (jt sub : Text) :
    0 ≤ calculate_data_science_boost jt sub := by
  simp only [calculate_data_science_boost]
  apply addKeywordBoosts_nonneg _ _ ?tiers
  case tiers =>
    intro p hp
    simp only [List.mem_cons, List.not_mem_nil, or_false] at hp
    rcases hp with rfl | rfl | rfl <;> norm_num
  split_ifs <;> norm_num

/-- The DevOps boost is nonnegative. -/
theorem devops_boost_nonneg (jt sub : Text) : 0 ≤ calculate_devops_boost jt sub := by
  simp only [calculate_devops_boost]
  apply addKeywordBoosts_nonneg _ _ ?tiers
  case tiers =>
    intro p hp
    simp only [List.mem_cons, List.not_mem_nil, or_false] at hp
    rcases hp with rfl | rfl | rfl <;> norm_num
  split_ifs <;> norm_num

/-- The cloud boost is nonnegative. -/
theorem cloud_boost_nonneg (jt sub : Text) : 0 ≤ calculate_cloud_boost jt sub := by
  simp only [calculate_cloud_boost]
  apply addKeywordBoosts_nonneg _ _ ?tiers
  case tiers =>
    intro p hp
    simp only [List.mem_cons, List.not_mem_nil, or_false] at hp
    rcases hp with rfl | rfl | rfl <;> norm_num
  split_ifs <;> norm_num

/-- The capped domain boost is nonnegative. -/
theorem advanced_boost_nonneg (jt pd sub : Text) :
    0 ≤ calculate_advanced_domain_boost jt pd sub := by
  simp only [calculate_advanced_domain_boost]
  rw [le_min_iff]
  refine ⟨?_, by norm_num⟩
  split_ifs
  · exact javascript_boost_nonneg _ _
  · exact python_boost_nonneg _ _
  · exact java_boost_nonneg _ _
  · exact cybersecurity_boost_nonneg _ _
  · exact data_science_boost_nonneg _ _
  · exact devops_boost_nonneg _ _
  · exact cloud_boost_nonneg _ _
  · exact le_refl 0

/-- The capped domain boost is at most one half. -/
theorem advanced_boost_le_half (jt pd sub : Text) :
    calculate_advanced_domain_boost jt pd sub ≤ 1 / 2 := by
  simp only [calculate_advanced_domain_boost]
  calc min _ (0.5 : ℚ) ≤ (0.5 : ℚ) := min_le_right _ _
    _ = 1 / 2 := by norm_num

/-- C1: for every (resume analysis, posting text) pair the computed domain
boost lies in [0, 0.5], and every posting in the ranking output carries
`finalSimilarity = min(baseSimilarity + domainBoost, 1.0)` with that bounded
boost. -/
theorem C1_boost_capped_final_formula :
    (∀ (job_text primary_domain subdomain : Text),
      0 ≤ calculate_advanced_domain_boost job_text primary_domain subdomain ∧
        calculate_advanced_domain_boost job_text primary_domain subdomain ≤ 1 / 2) ∧
    (∀ (sim : Text → Text → ℚ) (resume_text : Text) (jobs : List Job)
        (ra : ResumeAnalysis) (j : Job),
      j ∈ (rank_jobs_domain_aware sim resume_text jobs ra).1 →
      ∃ b d : ℚ, j.base_similarity = some b ∧ j.domain_boost = some d ∧
        0 ≤ d ∧ d ≤ 1 / 2 ∧ j.similarity = some (min (b + d) 1)) := by
  constructor
  · intro jt pd sub
    exact ⟨advanced_boost_nonneg jt pd sub, advanced_boost_le_half jt pd sub⟩
  · intro sim rt jobs ra j hj
    simp only [rank_jobs_domain_aware, List.mem_insertionSort, List.mem_map] at hj
    obtain ⟨j0, _, rfl⟩ := hj
    refine ⟨sim rt (jobText j0),
      calculate_advanced_domain_boost (jobText j0) ra.primary_domain ra.subdomain,
      rfl, rfl, advanced_boost_nonneg _ _ _, advanced_boost_le_half _ _ _, ?_⟩
    simp only [augmentJob]
    norm_num

/-- Concrete constant similarity signal used by witnesses. -/
def simHalf : Text → Text → ℚ := fun _ _ => 1 / 2

/-- The ranking output on a one-posting list with the constant signal. -/
def rankedW : List Job := (rank_jobs_domain_aware simHalf (s "") [{}] ra0).1

/-- The single ranked posting of that run. -/
def jW : Job := rankedW.headD {}

/-- Witness for C1 at a concrete one-posting input. -/
theorem C1_witness :
    jW ∈ rankedW ∧
    (∃ b d : ℚ, jW.base_similarity = some b ∧ jW.domain_boost = some d ∧
      0 ≤ d ∧ d ≤ 1 / 2 ∧ jW.similarity = some (min (b + d) 1)) :=
  ⟨by simp [jW, rankedW, rank_jobs_domain_aware, List.insertionSort, List.orderedInsert],
   C1_boost_capped_final_formula.2 simHalf (s "") [{}] ra0 jW
     (by simp [jW, rankedW, rank_jobs_domain_aware, List.insertionSort, List.orderedInsert])⟩

/-- C2 as stated is false: with a negative external similarity (cosine
similarity may be negative) the final similarity is negative, hence outside
[0, 1]. -/
theorem C2_counterexample :
    (((rank_jobs_domain_aware (fun _ _ => -(9 / 10)) (s "") [{}] ra0).1.headD {}).similarity =
        some (-(9 / 10))) ∧
    ¬(0 ≤ (-(9 / 10) : ℚ)) := by
  have hb : ∀ jt sub : Text, calculate_advanced_domain_boost jt (s "x") sub = 0 := by
    intro jt sub
    simp only [calculate_advanced_domain_boost]
    rw [if_neg (by decide), if_neg (by decide), if_neg (by decide), if_neg (by decide),
      if_neg (by decide), if_neg (by decide), if_neg (by decide)]
    norm_num
  constructor
  · simp only [rank_jobs_domain_aware, List.insertionSort, List.orderedInsert,
      List.map, augmentJob, List.headD, ra0]
    rw [hb]
    norm_num
  · norm_num

/-- C2 amended: if every value of the external similarity signal lies in
[0, 1] (the spec's expected range), then every ranked posting's final
similarity lies in [0, 1]. -/
theorem C2_final_in_unit_interval (sim : Text → Text → ℚ) (resume_text : Text)
    (jobs : List Job) (ra : ResumeAnalysis)
    (hsim : ∀ r t, 0 ≤ sim r t ∧ sim r t ≤ 1) :
    ∀ j ∈ (rank_jobs_domain_aware sim resume_text jobs ra).1,
      ∃ q : ℚ, j.similarity = some q ∧ 0 ≤ q ∧ q ≤ 1 := by
  intro j hj
  simp only [rank_jobs_domain_aware, List.mem_insertionSort, List.mem_map] at hj
  obtain ⟨j0, _, rfl⟩ := hj
  refine ⟨min (sim resume_text (jobText j0) +
      calculate_advanced_domain_boost (jobText j0) ra.primary_domain ra.subdomain) 1,
    ?_, ?_, min_le_right _ _⟩
  · simp only [augmentJob]
    norm_num
  · refine le_min (add_nonneg (hsim _ _).1 (advanced_boost_nonneg _ _ _)) zero_le_one

/-- Witness for C2 at a concrete one-posting input with signal 1/2. -/
theorem C2_witness :
    ∃ q : ℚ, jW.similarity = some q ∧ 0 ≤ q ∧ q ≤ 1 :=
  C2_final_in_unit_interval simHalf (s "") [{}] ra0
    (fun _ _ => ⟨by norm_num [simHalf], by norm_num [simHalf]⟩) jW
    (by simp [jW, rankedW, rank_jobs_domain_aware, List.insertionSort, List.orderedInsert])

/-- Inserting an element satisfying `p` that precedes every `p`-element
commutes with `filter p` up to a leading cons. -/
theorem filter_orderedInsert_pos {α : Type} (r : α → α → Prop) [DecidableRel r]
    (p : α → Bool) (x : α) (hx : p x = true) (h : ∀ y, p y = true → r x y) :
    ∀ l : List α, (l.orderedInsert r x).filter p = x :: l.filter p := by
  intro l
  induction l with
  | nil => simp [List.orderedInsert, hx]
  | cons b l ih =>
    by_cases hrb : r x b
    · simp [List.orderedInsert, hrb, List.filter_cons, hx]
    · have hpb : p b = false := by
        cases hpb : p b
        · rfl
        · exact absurd (h b hpb) hrb
      simp [List.orderedInsert, hrb, List.filter_cons, hpb, ih]

/-- Inserting an element not satisfying `p` does not change `filter p`. -/
theorem filter_orderedInsert_neg {α : Type} (r : α → α → Prop) [DecidableRel r]
    (p : α → Bool) (x : α) (hx : p x = false) :
    ∀ l : List α, (l.orderedInsert r x).filter p = l.filter p := by
  intro l
  induction l with
  | nil => simp [List.orderedInsert, hx]
  | cons b l ih =>
    by_cases hrb : r x b
    · simp [List.orderedInsert, hrb, List.filter_cons, hx]
    · simp [List.orderedInsert, hrb, List.filter_cons, ih]

/-- Stability of insertion sort: when all `p`-elements are mutually related,
sorting does not change the subsequence of `p`-elements. -/
theorem filter_insertionSort {α : Type} (r : α → α → Prop) [DecidableRel r]
    (p : α → Bool) (h : ∀ a b, p a = true → p b = true → r a b) :
    ∀ l : List α, (l.insertionSort r).filter p = l.filter p := by
  intro l
  induction l with
  | nil => rfl
  | cons a l ih =>
    rw [List.insertionSort]
    cases hpa : p a
    · rw [filter_orderedInsert_neg r p a hpa, ih]
      simp [List.filter_cons, hpa]
    · rw [filter_orderedInsert_pos r p a hpa (fun y hy => h a y hpa hy), ih]
      simp [List.filter_cons, hpa]

/-- The original posting fields of a record, as written by the postings
provider (everything except the score keys added by ranking). -/
def baseFields (j : Job) : Text × Text × Text × Text × Text × Text × Text :=
  (j.title, j.company_name, j.description, j.location, j.via, j.share_link, j.link)

/-- C3: the ranking output is a permutation of the (augmented) input postings
— hence of the input postings themselves at the level of their original
fields — sorted non-increasingly by final similarity, and postings of equal
final similarity keep their relative input order. -/
theorem C3_ranking_is_stable_sorted_permutation (sim : Text → Text → ℚ)
    (resume_text : Text) (jobs : List Job) (ra : ResumeAnalysis) :
    ((rank_jobs_domain_aware sim resume_text jobs ra).1.Perm
      ((rank_jobs_domain_aware sim resume_text jobs ra).2)) ∧
    (((rank_jobs_domain_aware sim resume_text jobs ra).1.map baseFields).Perm
      (jobs.map baseFields)) ∧
    List.Sorted rankRel ((rank_jobs_domain_aware sim resume_text jobs ra).1) ∧
    (∀ v : ℚ,
      ((rank_jobs_domain_aware sim resume_text jobs ra).1.filter
        (fun j => decide (j.similarity.getD 0 = v))) =
      ((rank_jobs_domain_aware sim resume_text jobs ra).2.filter
        (fun j => decide (j.similarity.getD 0 = v)))) := by
  refine ⟨List.perm_insertionSort rankRel _, ?_, List.sorted_insertionSort rankRel _, ?_⟩
  · refine ((List.perm_insertionSort rankRel _).map baseFields).trans ?_
    simp only [rank_jobs_domain_aware, List.map_map]
    exact List.Perm.refl _
  · intro v
    apply filter_insertionSort
    intro a b ha hb
    simp only [decide_eq_true_eq] at ha hb
    unfold rankRel
    rw [ha, hb]

/-- One bucket term `(matched / total) * w` lies in `[0, w]` whenever
`matched ≤ total` (with the `0/0 = 0` convention covering an empty bucket). -/
theorem bucket_term_bounds (matched total : Nat) (hm : matched ≤ total) (w : ℚ)
    (hw : 0 ≤ w) :
    0 ≤ (matched : ℚ) / (total : ℚ) * w ∧ (matched : ℚ) / (total : ℚ) * w ≤ w := by
  rcases Nat.eq_zero_or_pos total with h0 | hpos
  · subst h0
    have : matched = 0 := Nat.le_zero.mp hm
    subst this
    constructor
    · norm_num
    · simpa using hw
  · have htq : (0 : ℚ) < (total : ℚ) := by exact_mod_cast hpos
    constructor
    · exact mul_nonneg (div_nonneg (by positivity) htq.le) hw
    · have h1 : (matched : ℚ) / (total : ℚ) ≤ 1 := by
        rw [div_le_one htq]
        exact_mod_cast hm
      calc (matched : ℚ) / (total : ℚ) * w ≤ 1 * w := mul_le_mul_of_nonneg_right h1 hw
        _ = w := one_mul w

/-- Rounding to one decimal place keeps a value of `[0, 100]` in `[0, 100]`. -/
theorem round1_bounds (x : ℚ) (h0 : 0 ≤ x) (h100 : x ≤ 100) :
    0 ≤ round1 x ∧ round1 x ≤ 100 := by
  unfold round1
  rw [round_eq]
  constructor
  · apply div_nonneg _ (by norm_num)
    exact_mod_cast Int.floor_nonneg.mpr (by linarith)
  · rw [div_le_iff₀ (by norm_num : (0:ℚ) < 10)]
    have h1 : (10 * x + 1 / 2 : ℚ) ≤ 2001 / 2 := by linarith
    have h2 : ⌊(10 * x + 1 / 2 : ℚ)⌋ ≤ ⌊(2001 / 2 : ℚ)⌋ := Int.floor_le_floor h1
    have h3 : ⌊(2001 / 2 : ℚ)⌋ = 1000 := by
      rw [Int.floor_eq_iff]
      constructor <;> norm_num
    rw [h3] at h2
    calc (⌊(10 * x + 1 / 2 : ℚ)⌋ : ℚ) ≤ (1000 : ℚ) := by exact_mod_cast h2
      _ = 100 * 10 := by norm_num

/-- The filtered match list is never longer than its bucket. -/
theorem computeDomainScore_bounds (d : Domain) (resume_text : Text) :
    0 ≤ (computeDomainScore d resume_text).score ∧
      (computeDomainScore d resume_text).score ≤ 100 := by
  have hk := bucket_term_bounds
    ((domain_keywords d).keywords.filter
      (fun kw => substr (lower kw) (lower resume_text))).length
    (domain_keywords d).keywords.length (List.length_filter_le _ _) 40 (by norm_num)
  have ht := bucket_term_bounds
    ((domain_keywords d).tools.filter
      (fun tool => substr (lower tool) (lower resume_text))).length
    (domain_keywords d).tools.length (List.length_filter_le _ _) 25 (by norm_num)
  have hf := bucket_term_bounds
    ((domain_keywords d).frameworks.filter
      (fun fw => substr (lower fw) (lower resume_text))).length
    (domain_keywords d).frameworks.length (List.length_filter_le _ _) 20 (by norm_num)
  have hd := bucket_term_bounds
    ((domain_keywords d).databases.filter
      (fun db => substr (lower db) (lower resume_text))).length
    (domain_keywords d).databases.length (List.length_filter_le _ _) 10 (by norm_num)
  have hc := bucket_term_bounds
    ((domain_keywords d).cloud.filter
      (fun cl => substr (lower cl) (lower resume_text))).length
    (domain_keywords d).cloud.length (List.length_filter_le _ _) 5 (by norm_num)
  have := round1_bounds
    ((((domain_keywords d).keywords.filter
        (fun kw => substr (lower kw) (lower resume_text))).length : ℚ) /
          ((domain_keywords d).keywords.length : ℚ) * 40 +
      (((domain_keywords d).tools.filter
        (fun tool => substr (lower tool) (lower resume_text))).length : ℚ) /
          ((domain_keywords d).tools.length : ℚ) * 25 +
      (((domain_keywords d).frameworks.filter
        (fun fw => substr (lower fw) (lower resume_text))).length : ℚ) /
          ((domain_keywords d).frameworks.length : ℚ) * 20 +
      (((domain_keywords d).databases.filter
        (fun db => substr (lower db) (lower resume_text))).length : ℚ) /
          ((domain_keywords d).databases.length : ℚ) * 10 +
      (((domain_keywords d).cloud.filter
        (fun cl => substr (lower cl) (lower resume_text))).length : ℚ) /
          ((domain_keywords d).cloud.length : ℚ) * 5)
    (by linarith [hk.1, ht.1, hf.1, hd.1, hc.1])
    (by linarith [hk.2, ht.2, hf.2, hd.2, hc.2])
  exact this

/-- The fold of `max(..., key=score)` dominates its seed and every list
element. -/
theorem pickMax_ge (l : List (Text × DomainScore)) :
    ∀ b : Text × DomainScore,
      b.2.score ≤ (pickMax l b).2.score ∧
        ∀ p ∈ l, p.2.score ≤ (pickMax l b).2.score := by
  induction l with
  | nil => intro b; exact ⟨le_refl _, fun p hp => absurd hp (List.not_mem_nil p)⟩
  | cons x l ih =>
    intro b
    simp only [pickMax, List.foldl_cons] at *
    by_cases hx : b.2.score < x.2.score
    · have h := ih x
      rw [if_pos hx]
      refine ⟨le_trans hx.le h.1, fun p hp => ?_⟩
      rcases List.mem_cons.mp hp with rfl | hpl
      · exact h.1
      · exact h.2 p hpl
    · have h := ih b
      rw [if_neg hx]
      refine ⟨h.1, fun p hp => ?_⟩
      rcases List.mem_cons.mp hp with rfl | hpl
      · exact le_trans (not_lt.mp hx) h.1
      · exact h.2 p hpl

/-- The fold of `max(..., key=score)` returns the seed or a list element. -/
theorem pickMax_mem (l : List (Text × DomainScore)) :
    ∀ b : Text × DomainScore, pickMax l b = b ∨ pickMax l b ∈ l := by
  induction l with
  | nil => intro b; exact Or.inl rfl
  | cons x l ih =>
    intro b
    simp only [pickMax, List.foldl_cons] at *
    by_cases hx : b.2.score < x.2.score
    · rw [if_pos hx]
      rcases ih x with h | h
      · exact Or.inr (List.mem_cons.mpr (Or.inl h))
      · exact Or.inr (List.mem_cons_of_mem x h)
    · rw [if_neg hx]
      rcases ih b with h | h
      · exact Or.inl h
      · exact Or.inr (List.mem_cons_of_mem x h)

/-- C4: every domain score lies in [0, 100], and the primary domain selected
by `analyze_resume_type` scores at least as high as every domain. -/
theorem C4_scores_bounded_primary_maximal (resume_text : Text) (d : Domain) :
    (0 ≤ (computeDomainScore d resume_text).score ∧
      (computeDomainScore d resume_text).score ≤ 100) ∧
    (computeDomainScore d resume_text).score ≤
      (analyze_resume_type resume_text).primary_score := by
  refine ⟨computeDomainScore_bounds d resume_text, ?_⟩
  have hpp : (analyze_resume_type resume_text).primary_score =
      (primaryPair resume_text).2.score := rfl
  rw [hpp]
  have hall : allItems resume_text =
      (domainName .javascript_fullstack,
        computeDomainScore .javascript_fullstack resume_text) ::
      [.python_development, .java_development, .cybersecurity, .data_science,
        .devops, .cloud_engineering].map
        (fun d => (domainName d, computeDomainScore d resume_text)) := rfl
  have hpm : primaryPair resume_text =
      pickMax ([Domain.python_development, .java_development, .cybersecurity,
        .data_science, .devops, .cloud_engineering].map
          (fun d => (domainName d, computeDomainScore d resume_text)))
        (domainName .javascript_fullstack,
          computeDomainScore .javascript_fullstack resume_text) := by
    unfold primaryPair
    rw [hall]
  rw [hpm]
  have h := pickMax_ge
    ([Domain.python_development, .java_development, .cybersecurity, .data_science,
      .devops, .cloud_engineering].map
        (fun d => (domainName d, computeDomainScore d resume_text)))
    (domainName .javascript_fullstack,
      computeDomainScore .javascript_fullstack resume_text)
  cases d with
  | javascript_fullstack => exact h.1
  | python_development =>
    exact h.2 _ (List.mem_map_of_mem _ (by simp))
  | java_development =>
    exact h.2 _ (List.mem_map_of_mem _ (by simp))
  | cybersecurity =>
    exact h.2 _ (List.mem_map_of_mem _ (by simp))
  | data_science =>
    exact h.2 _ (List.mem_map_of_mem _ (by simp))
  | devops =>
    exact h.2 _ (List.mem_map_of_mem _ (by simp))
  | cloud_engineering =>
    exact h.2 _ (List.mem_map_of_mem _ (by simp))

/-- The fixed enumerated subdomain set of each domain: exactly the return
values of the corresponding branch of `detect_subdomain`
(`job_recommender.py:693-767`), with `["general"]` for an unrecognized
domain name. -/
def subdomain_set (pd : Text) : List Text :=
  if pd = s "javascript_fullstack" then
    [s "full_stack", s "frontend", s "backend", s "mern_stack", s "javascript_developer"]
  else if pd = s "python_development" then
    [s "django_developer", s "flask_developer", s "fastapi_developer", s "python_developer"]
  else if pd = s "java_development" then
    [s "spring_developer", s "hibernate_developer", s "java_developer"]
  else if pd = s "cybersecurity" then
    [s "penetration_tester", s "incident_response", s "soc_analyst", s "security_analyst"]
  else if pd = s "data_science" then
    [s "ml_engineer", s "nlp_engineer", s "computer_vision_engineer", s "data_scientist"]
  else if pd = s "devops" then
    [s "ci_cd_engineer", s "kubernetes_engineer", s "infrastructure_engineer", s "devops_engineer"]
  else if pd = s "cloud_engineering" then
    [s "aws_engineer", s "azure_engineer", s "gcp_engineer", s "cloud_engineer"]
  else [s "general"]

/-- The seven domain-name strings, in declaration order. -/
def domainNames : List Text := domainsInOrder.map domainName

/-- Every result of `detect_subdomain` belongs to the corresponding fixed
subdomain set. -/
theorem detect_in_set (resume_text pd : Text) :
    detect_subdomain resume_text pd ∈ subdomain_set pd := by
  by_cases h1 : pd = s "javascript_fullstack"
  · subst h1
    simp only [detect_subdomain]
    simp only [if_true]
    split_ifs <;> decide
  by_cases h2 : pd = s "python_development"
  · subst h2
    simp only [detect_subdomain]
    rw [if_neg (by decide)]
    simp only [if_true]
    split_ifs <;> decide
  by_cases h3 : pd = s "java_development"
  · subst h3
    simp only [detect_subdomain]
    rw [if_neg (by decide), if_neg (by decide)]
    simp only [if_true]
    split_ifs <;> decide
  by_cases h4 : pd = s "cybersecurity"
  · subst h4
    simp only [detect_subdomain]
    rw [if_neg (by decide), if_neg (by decide), if_neg (by decide)]
    simp only [if_true]
    split_ifs <;> decide
  by_cases h5 : pd = s "data_science"
  · subst h5
    simp only [detect_subdomain]
    rw [if_neg (by decide), if_neg (by decide), if_neg (by decide), if_neg (by decide)]
    simp only [if_true]
    split_ifs <;> decide
  by_cases h6 : pd = s "devops"
  · subst h6
    simp only [detect_subdomain]
    rw [if_neg (by decide), if_neg (by decide), if_neg (by decide), if_neg (by decide),
      if_neg (by decide)]
    simp only [if_true]
    split_ifs <;> decide
  by_cases h7 : pd = s "cloud_engineering"
  · subst h7
    simp only [detect_subdomain]
    rw [if_neg (by decide), if_neg (by decide), if_neg (by decide), if_neg (by decide),
      if_neg (by decide), if_neg (by decide)]
    simp only [if_true]
    split_ifs <;> decide
  simp only [detect_subdomain]
  rw [if_neg h1, if_neg h2, if_neg h3, if_neg h4, if_neg h5, if_neg h6, if_neg h7]
  simp only [subdomain_set]
  rw [if_neg h1, if_neg h2, if_neg h3, if_neg h4, if_neg h5, if_neg h6, if_neg h7]
  decide

/-- C5: the subdomain reported by classification is a member of the fixed
enumerated subdomain set of the chosen primary domain; `"general"` appears
exactly for unrecognized primary-domain names. -/
theorem C5_subdomain_member_of_domain_set (resume_text : Text) :
    ((analyze_resume_type resume_text).subdomain ∈
      subdomain_set ((analyze_resume_type resume_text).primary_domain)) ∧
    (∀ pd : Text, pd ∉ domainNames → detect_subdomain resume_text pd = s "general") ∧
    (∀ pd : Text, pd ∈ domainNames → detect_subdomain resume_text pd ≠ s "general") := by
  refine ⟨?_, ?_, ?_⟩
  · exact detect_in_set resume_text ((analyze_resume_type resume_text).primary_domain)
  · intro pd hpd
    have h : ¬(pd = s "javascript_fullstack") ∧ ¬(pd = s "python_development") ∧
        ¬(pd = s "java_development") ∧ ¬(pd = s "cybersecurity") ∧
        ¬(pd = s "data_science") ∧ ¬(pd = s "devops") ∧
        ¬(pd = s "cloud_engineering") := by
      simpa [domainNames, domainsInOrder, domainName, not_or] using hpd
    unfold detect_subdomain
    rw [if_neg h.1, if_neg h.2.1, if_neg h.2.2.1, if_neg h.2.2.2.1,
      if_neg h.2.2.2.2.1, if_neg h.2.2.2.2.2.1, if_neg h.2.2.2.2.2.2]
  · intro pd hpd
    have h : pd = s "javascript_fullstack" ∨ pd = s "python_development" ∨
        pd = s "java_development" ∨ pd = s "cybersecurity" ∨
        pd = s "data_science" ∨ pd = s "devops" ∨ pd = s "cloud_engineering" := by
      simpa [domainNames, domainsInOrder, domainName] using hpd
    rcases h with rfl | rfl | rfl | rfl | rfl | rfl | rfl
    · simp only [detect_subdomain]
      simp only [if_true]
      split_ifs <;> decide
    · simp only [detect_subdomain]
      rw [if_neg (by decide)]
      simp only [if_true]
      split_ifs <;> decide
    · simp only [detect_subdomain]
      rw [if_neg (by decide), if_neg (by decide)]
      simp only [if_true]
      split_ifs <;> decide
    · simp only [detect_subdomain]
      rw [if_neg (by decide), if_neg (by decide), if_neg (by decide)]
      simp only [if_true]
      split_ifs <;> decide
    · simp only [detect_subdomain]
      rw [if_neg (by decide), if_neg (by decide), if_neg (by decide), if_neg (by decide)]
      simp only [if_true]
      split_ifs <;> decide
    · simp only [detect_subdomain]
      rw [if_neg (by decide), if_neg (by decide), if_neg (by decide), if_neg (by decide),
        if_neg (by decide)]
      simp only [if_true]
      split_ifs <;> decide
    · simp only [detect_subdomain]
      rw [if_neg (by decide), if_neg (by decide), if_neg (by decide), if_neg (by decide),
        if_neg (by decide), if_neg (by decide)]
      simp only [if_true]
      split_ifs <;> decide

/-- Witness for C5's general clauses at concrete domain names. -/
theorem C5_witness :
    detect_subdomain (s "") (s "x") = s "general" ∧
    detect_subdomain (s "") (s "javascript_fullstack") ≠ s "general" :=
  ⟨(C5_subdomain_member_of_domain_set (s "")).2.1 (s "x") (by decide),
   (C5_subdomain_member_of_domain_set (s "")).2.2 (s "javascript_fullstack") (by decide)⟩

/-- The javascript_fullstack subdomain decision tree exactly as the spec
words it: if both "frontend" and "backend" occur (case-insensitively) the
subdomain is full_stack; else "frontend" alone gives frontend; else
"backend" alone gives backend; else "mern" or "mean" gives mern_stack; else
the generic javascript developer label. Written from the spec, to be compared
with `detect_subdomain`. -/
def jsSubdomainSpec (resume_text : Text) : Text :=
  let occurs := fun (w : String) => substr (lower (s w)) (lower resume_text)
  if occurs "frontend" && occurs "backend" then s "full_stack"
  else if occurs "frontend" then s "frontend"
  else if occurs "backend" then s "backend"
  else if occurs "mern" || occurs "mean" then s "mern_stack"
  else s "javascript_developer"

/-- C6: for a javascript_fullstack primary domain, `detect_subdomain`
implements exactly the spec's ordered decision tree. -/
theorem C6_javascript_subdomain_tree (resume_text : Text) :
    detect_subdomain resume_text (s "javascript_fullstack") =
      jsSubdomainSpec resume_text := rfl

/-- A nonempty needle never occurs in the empty lowered text. -/
theorem substr_empty_text (n : Text) (hn : n ≠ []) :
    substr n (lower (s "")) = false := by
  cases n with
  | nil => exact absurd rfl hn
  | cons c cs => rfl

/-- On the empty resume text every bucket filter is empty. -/
theorem filter_empty_matches (l : List Text) (h : ∀ w ∈ l, w ≠ []) :
    l.filter (fun kw => substr (lower kw) (lower (s ""))) = [] := by
  induction l with
  | nil => rfl
  | cons w ws ih =>
    rw [List.filter_cons]
    have hw : substr (lower w) (lower (s "")) = false := by
      apply substr_empty_text
      have hwne := h w (List.mem_cons_self w ws)
      cases w with
      | nil => exact absurd rfl hwne
      | cons c cs => simp [lower]
    rw [hw]
    simp only [Bool.false_eq_true, if_false]
    exact ih (fun w hw => h w (List.mem_cons_of_mem _ hw))

/-- Every term of every bucket of every domain is a nonempty string. -/
theorem bucket_words_nonempty (d : Domain) :
    (∀ w ∈ (domain_keywords d).keywords, w ≠ []) ∧
    (∀ w ∈ (domain_keywords d).tools, w ≠ []) ∧
    (∀ w ∈ (domain_keywords d).frameworks, w ≠ []) ∧
    (∀ w ∈ (domain_keywords d).databases, w ≠ []) ∧
    (∀ w ∈ (domain_keywords d).cloud, w ≠ []) := by
  cases d <;> exact ⟨by decide, by decide, by decide, by decide, by decide⟩

/-- On the empty resume text every domain scores exactly 0. -/
theorem score_empty (d : Domain) : (computeDomainScore d (s "")).score = 0 := by
  have h := bucket_words_nonempty d
  simp only [computeDomainScore]
  rw [filter_empty_matches _ h.1, filter_empty_matches _ h.2.1,
    filter_empty_matches _ h.2.2.1, filter_empty_matches _ h.2.2.2.1,
    filter_empty_matches _ h.2.2.2.2]
  norm_num [round1, round_zero]

/-- The `max` fold keeps its seed when nothing scores strictly higher. -/
theorem pickMax_eq_self (l : List (Text × DomainScore)) :
    ∀ b : Text × DomainScore, (∀ p ∈ l, p.2.score ≤ b.2.score) → pickMax l b = b := by
  induction l with
  | nil => intro b _; rfl
  | cons x l ih =>
    intro b h
    simp only [pickMax, List.foldl_cons] at *
    rw [if_neg (not_lt.mpr (h x (List.mem_cons_self x l)))]
    exact ih b (fun p hp => h p (List.mem_cons_of_mem _ hp))

/-- C7: the empty resume text scores 0 in all seven domains, the primary
domain is the first domain of the fixed enumeration, and parsing yields an
entirely empty `ParsedResume`. -/
theorem C7_empty_resume :
    ((analyze_resume_type (s "")).all_domains.map (fun p => p.2.score) =
      [0, 0, 0, 0, 0, 0, 0]) ∧
    ((analyze_resume_type (s "")).primary_domain = s "javascript_fullstack") ∧
    (parse_resume (s "") =
      { contact_info := {}, skills := [], experience := [], education := [],
        projects := [], certifications := [], languages := [], raw_text := [],
        parsed_sections := [], summary := none }) := by
  refine ⟨?_, ?_, by decide⟩
  · show (allItems (s "")).map (fun p => p.2.score) = [0, 0, 0, 0, 0, 0, 0]
    simp [allItems, domainsInOrder, score_empty]
  · show (primaryPair (s "")).1 = s "javascript_fullstack"
    have hpm : primaryPair (s "") =
        pickMax ([Domain.python_development, .java_development, .cybersecurity,
          .data_science, .devops, .cloud_engineering].map
            (fun d => (domainName d, computeDomainScore d (s ""))))
          (domainName .javascript_fullstack,
            computeDomainScore .javascript_fullstack (s "")) := by
      unfold primaryPair
      rfl
    have hall : ∀ p ∈ ([Domain.python_development, .java_development, .cybersecurity,
        .data_science, .devops, .cloud_engineering].map
          (fun d => (domainName d, computeDomainScore d (s "")))),
        p.2.score ≤ (domainName Domain.javascript_fullstack,
          computeDomainScore Domain.javascript_fullstack (s "")).2.score := by
      intro p hp
      obtain ⟨d, _, rfl⟩ := List.mem_map.mp hp
      rw [score_empty d, score_empty .javascript_fullstack]
    rw [hpm, pickMax_eq_self _ _ hall]
    rfl

/-- Any text of the shape `p ++ loc ++ " jobs"` with `p` ending in a space
ends in `" <loc> jobs"`. -/
theorem suffix_pad (p q loc : Text) (h : p = q ++ s " ") :
    (s " " ++ loc ++ s " jobs") <:+ (p ++ loc ++ s " jobs") := by
  subst h
  exact ⟨q, by simp [List.append_assoc]⟩

/-- A text ending in `" <loc> jobs"` is nonempty. -/
theorem suffix_tail_ne_nil (loc q : Text) (h : (s " " ++ loc ++ s " jobs") <:+ q) :
    q ≠ [] := by
  obtain ⟨t, ht⟩ := h
  intro hq
  subst hq
  have h1 := List.append_eq_nil.mp ht
  have h2 := List.append_eq_nil.mp h1.2
  exact absurd h2.2 (by decide)

/-- Every JavaScript query ends in `" <loc> jobs"`. -/
theorem jsq_suffix (d : DomainScore) (sub loc : Text) :
    (s " " ++ loc ++ s " jobs") <:+ generate_javascript_query d sub loc := by
  simp only [generate_javascript_query]
  split_ifs
  all_goals first
    | exact suffix_pad _ _ _ rfl
    | exact suffix_pad _ (s "Full Stack Developer JavaScript React Node.js") _ (by decide)
    | exact suffix_pad _ (s "MERN Stack Developer MongoDB Express React Node.js") _ (by decide)
    | exact suffix_pad _ (s "Frontend Developer JavaScript React") _ (by decide)
    | exact suffix_pad _ (s "Backend Developer Node.js Express") _ (by decide)
    | exact suffix_pad _ (s "JavaScript Developer") _ (by decide)

/-- Every Python query ends in `" <loc> jobs"`. -/
theorem pyq_suffix (d : DomainScore) (sub loc : Text) :
    (s " " ++ loc ++ s " jobs") <:+ generate_python_query d sub loc := by
  simp only [generate_python_query]
  split_ifs
  all_goals first
    | exact suffix_pad _ _ _ rfl
    | exact suffix_pad _ (s "Django Developer Python") _ (by decide)
    | exact suffix_pad _ (s "Flask Developer Python") _ (by decide)
    | exact suffix_pad _ (s "FastAPI Developer Python") _ (by decide)
    | exact suffix_pad _ (s "Python Developer") _ (by decide)

/-- Every Java query ends in `" <loc> jobs"`. -/
theorem jvq_suffix (d : DomainScore) (sub loc : Text) :
    (s " " ++ loc ++ s " jobs") <:+ generate_java_query d sub loc := by
  simp only [generate_java_query]
  split_ifs
  all_goals first
    | exact suffix_pad _ _ _ rfl
    | exact suffix_pad _ (s "Spring Developer Java") _ (by decide)
    | exact suffix_pad _ (s "Hibernate Developer Java") _ (by decide)
    | exact suffix_pad _ (s "Java Developer") _ (by decide)

/-- Every cybersecurity query ends in `" <loc> jobs"`. -/
theorem cyq_suffix (d : DomainScore) (sub loc : Text) :
    (s " " ++ loc ++ s " jobs") <:+ generate_cybersecurity_query d sub loc := by
  simp only [generate_cybersecurity_query]
  split_ifs
  all_goals first
    | exact suffix_pad _ _ _ rfl
    | exact suffix_pad _ (s "Penetration Tester Ethical Hacker") _ (by decide)
    | exact suffix_pad _ (s "Incident Response Analyst") _ (by decide)
    | exact suffix_pad _ (s "SOC Analyst Security Operations") _ (by decide)
    | exact suffix_pad _ (s "Cybersecurity Engineer") _ (by decide)

/-- Every data-science query ends in `" <loc> jobs"`. -/
theorem dsq_suffix (d : DomainScore) (sub loc : Text) :
    (s " " ++ loc ++ s " jobs") <:+ generate_data_science_query d sub loc := by
  simp only [generate_data_science_query]
  split_ifs
  all_goals first
    | exact suffix_pad _ _ _ rfl
    | exact suffix_pad _ (s "Machine Learning Engineer Python") _ (by decide)
    | exact suffix_pad _ (s "NLP Engineer Natural Language Processing") _ (by decide)
    | exact suffix_pad _ (s "Computer Vision Engineer Python") _ (by decide)
    | exact suffix_pad _ (s "Data Scientist") _ (by decide)

/-- Every DevOps query ends in `" <loc> jobs"`. -/
theorem dvq_suffix (d : DomainScore) (sub loc : Text) :
    (s " " ++ loc ++ s " jobs") <:+ generate_devops_query d sub loc := by
  simp only [generate_devops_query]
  split_ifs
  all_goals first
    | exact suffix_pad _ _ _ rfl
    | exact suffix_pad _ (s "CI/CD Engineer Jenkins GitLab") _ (by decide)
    | exact suffix_pad _ (s "Kubernetes Engineer DevOps") _ (by decide)
    | exact suffix_pad _ (s "Infrastructure Engineer Terraform") _ (by decide)
    | exact suffix_pad _ (s "DevOps Engineer") _ (by decide)

/-- Every cloud query ends in `" <loc> jobs"`. -/
theorem clq_suffix (d : DomainScore) (sub loc : Text) :
    (s " " ++ loc ++ s " jobs") <:+ generate_cloud_query d sub loc := by
  simp only [generate_cloud_query]
  split_ifs
  all_goals first
    | exact suffix_pad _ _ _ rfl
    | exact suffix_pad _ (s "AWS Engineer Cloud") _ (by decide)
    | exact suffix_pad _ (s "Azure Engineer Cloud") _ (by decide)
    | exact suffix_pad _ (s "GCP Engineer Cloud") _ (by decide)
    | exact suffix_pad _ (s "Cloud Engineer") _ (by decide)

/-- C8: on any analysis whose primary-domain entry is present, query
synthesis succeeds, yields a nonempty string ending in `" <location> jobs"`,
and yields exactly `"Software Developer <location> jobs"` for an
unrecognized primary domain. -/
theorem C8_query_synthesis_total (ra : ResumeAnalysis) (loc : Text)
    (hwf : (dget ra.primary_domain ra.all_domains).isSome = true) :
    ∃ q, generate_smart_query ra loc = some q ∧ q ≠ [] ∧
      (s " " ++ loc ++ s " jobs") <:+ q ∧
      (ra.primary_domain ∉ domainNames →
        q = s "Software Developer " ++ loc ++ s " jobs") := by
  simp only [generate_smart_query]
  split
  · rename_i hd
    rw [hd] at hwf
    simp at hwf
  · rename_i data hd
    by_cases h1 : ra.primary_domain = s "javascript_fullstack"
    · rw [if_pos h1]
      exact ⟨_, rfl, suffix_tail_ne_nil loc _ (jsq_suffix data ra.subdomain loc),
        jsq_suffix data ra.subdomain loc,
        fun hn => absurd (by rw [h1]; decide) hn⟩
    rw [if_neg h1]
    by_cases h2 : ra.primary_domain = s "python_development"
    · rw [if_pos h2]
      exact ⟨_, rfl, suffix_tail_ne_nil loc _ (pyq_suffix data ra.subdomain loc),
        pyq_suffix data ra.subdomain loc,
        fun hn => absurd (by rw [h2]; decide) hn⟩
    rw [if_neg h2]
    by_cases h3 : ra.primary_domain = s "java_development"
    · rw [if_pos h3]
      exact ⟨_, rfl, suffix_tail_ne_nil loc _ (jvq_suffix data ra.subdomain loc),
        jvq_suffix data ra.subdomain loc,
        fun hn => absurd (by rw [h3]; decide) hn⟩
    rw [if_neg h3]
    by_cases h4 : ra.primary_domain = s "cybersecurity"
    · rw [if_pos h4]
      exact ⟨_, rfl, suffix_tail_ne_nil loc _ (cyq_suffix data ra.subdomain loc),
        cyq_suffix data ra.subdomain loc,
        fun hn => absurd (by rw [h4]; decide) hn⟩
    rw [if_neg h4]
    by_cases h5 : ra.primary_domain = s "data_science"
    · rw [if_pos h5]
      exact ⟨_, rfl, suffix_tail_ne_nil loc _ (dsq_suffix data ra.subdomain loc),
        dsq_suffix data ra.subdomain loc,
        fun hn => absurd (by rw [h5]; decide) hn⟩
    rw [if_neg h5]
    by_cases h6 : ra.primary_domain = s "devops"
    · rw [if_pos h6]
      exact ⟨_, rfl, suffix_tail_ne_nil loc _ (dvq_suffix data ra.subdomain loc),
        dvq_suffix data ra.subdomain loc,
        fun hn => absurd (by rw [h6]; decide) hn⟩
    rw [if_neg h6]
    by_cases h7 : ra.primary_domain = s "cloud_engineering"
    · rw [if_pos h7]
      exact ⟨_, rfl, suffix_tail_ne_nil loc _ (clq_suffix data ra.subdomain loc),
        clq_suffix data ra.subdomain loc,
        fun hn => absurd (by rw [h7]; decide) hn⟩
    rw [if_neg h7]
    have hs : (s " " ++ loc ++ s " jobs") <:+ (s "Software Developer " ++ loc ++ s " jobs") :=
      suffix_pad _ (s "Software Developer") _ (by decide)
    exact ⟨_, rfl, suffix_tail_ne_nil loc _ hs, hs, fun _ => rfl⟩

/-- A concrete well-formed analysis record with an unrecognized primary
domain present in its domain map. -/
def ra1 : ResumeAnalysis :=
  { primary_domain := s "x", primary_score := 0, subdomain := s "",
    all_domains := [(s "x", dummyDS)], top_domains := [], resume_text_length := 0,
    analysis := ⟨false, false, false⟩ }

/-- Witness for C8 on a concrete unrecognized-domain analysis. -/
theorem C8_witness :
    ∃ q, generate_smart_query ra1 (s "Bangalore") = some q ∧ q ≠ [] ∧
      (s " " ++ s "Bangalore" ++ s " jobs") <:+ q ∧
      (ra1.primary_domain ∉ domainNames →
        q = s "Software Developer " ++ s "Bangalore" ++ s " jobs") :=
  C8_query_synthesis_total ra1 (s "Bangalore") (by decide)

/-- When no line matches a header pattern, the segmenter loop only buffers
the stripped non-empty lines. -/
theorem extractLoop_no_headers (lines : List Text) :
    ∀ (sections : List (Text × Text)) (cur : Text) (content : List Text),
      (∀ line ∈ lines, findPat (stripT line) = none) →
      extractLoop lines sections cur content =
        (sections, cur, content ++ (lines.map stripT).filter (fun l => !l.isEmpty)) := by
  induction lines with
  | nil => intro sections cur content _; simp [extractLoop]
  | cons line rest ih =>
    intro sections cur content h
    have hline := h line (List.mem_cons_self line rest)
    simp only [extractLoop]
    by_cases he : stripT line = []
    · rw [if_pos he, ih _ _ _ (fun l hl => h l (List.mem_cons_of_mem _ hl))]
      simp [List.filter_cons, he]
    · rw [if_neg he, hline]
      dsimp only
      rw [ih _ _ _ (fun l hl => h l (List.mem_cons_of_mem _ hl))]
      have hie : (stripT line).isEmpty = false := by
        cases hst : stripT line with
        | nil => exact absurd hst he
        | cons c cs => rfl
      simp [List.filter_cons, hie, List.append_assoc]

/-- C9 amended: for every input text with at least one non-blank line and in
which no line matches any of the 9 section header patterns, the segmenter
yields exactly one section, tagged "general", whose content is the
newline-join of the stripped non-empty lines (the normalized input). -/
theorem C9_no_header_single_general_section (text : Text)
    (hno : ∀ line ∈ text.splitOn '\n', findPat (stripT line) = none)
    (hsome : ∃ line ∈ text.splitOn '\n', stripT line ≠ []) :
    extract_sections text =
      [(s "general",
        joinNL (((text.splitOn '\n').map stripT).filter (fun l => !l.isEmpty)))] := by
  simp only [extract_sections]
  rw [extractLoop_no_headers _ _ _ _ hno]
  dsimp only
  simp only [List.nil_append]
  have hne : ((text.splitOn '\n').map stripT).filter (fun l => !l.isEmpty) ≠ [] := by
    obtain ⟨line, hmem, hline⟩ := hsome
    intro hc
    have hie : (stripT line).isEmpty = false := by
      cases hst : stripT line with
      | nil => exact absurd hst hline
      | cons c cs => rfl
    have hmem2 : stripT line ∈ ((text.splitOn '\n').map stripT).filter
        (fun l => !l.isEmpty) :=
      List.mem_filter.mpr ⟨List.mem_map_of_mem _ hmem, by rw [hie]; rfl⟩
    rw [hc] at hmem2
    exact absurd hmem2 (List.not_mem_nil _)
  rw [if_pos hne]
  rfl

/-- Witness for C9 on a header-free one-line text. -/
theorem C9_witness :
    extract_sections (s "zzz") =
      [(s "general",
        joinNL ((((s "zzz").splitOn '\n').map stripT).filter (fun l => !l.isEmpty)))] :=
  C9_no_header_single_general_section (s "zzz") (by decide) (by decide)

/-- C9 as stated is false at the empty input: no line matches a header
pattern, yet the segmenter returns zero sections, not one. -/
theorem C9_counterexample :
    (∀ line ∈ (s "").splitOn '\n', findPat (stripT line) = none) ∧
    extract_sections (s "") = [] ∧ (extract_sections (s "")).length ≠ 1 :=
  ⟨by decide, by decide, by decide⟩

/-- C10 as stated is false: ranking mutates the input postings in place, so
after the call the posting list differs from its pre-call value (the
similarity key has been added). -/
theorem C10_counterexample :
    ((rank_jobs_domain_aware simHalf (s "") [{}] ra0).2 ≠ [({} : Job)]) ∧
    (((rank_jobs_domain_aware simHalf (s "") [{}] ra0).2.headD {}).similarity ≠
      ({} : Job).similarity) := by
  have hsome : ((rank_jobs_domain_aware simHalf (s "") [{}] ra0).2.headD {}).similarity.isSome
      = true := by
    simp [rank_jobs_domain_aware, augmentJob]
  constructor
  · intro hc
    have h2 := hsome
    rw [hc] at h2
    simp at h2
  · intro hc
    rw [hc] at hsome
    simp at hsome

/-- C10 amended: ranking augments the input postings in place with the five
score fields, but every original posting field (title, company_name,
description, location, via, share_link, link) is unchanged, posting by
posting in input order. -/
theorem C10_ranking_preserves_original_fields (sim : Text → Text → ℚ)
    (resume_text : Text) (jobs : List Job) (ra : ResumeAnalysis) :
    List.Forall₂ (fun j j' : Job =>
      j'.title = j.title ∧ j'.company_name = j.company_name ∧
      j'.description = j.description ∧ j'.location = j.location ∧
      j'.via = j.via ∧ j'.share_link = j.share_link ∧ j'.link = j.link ∧
      j'.similarity.isSome = true ∧ j'.base_similarity.isSome = true ∧
      j'.domain_boost.isSome = true ∧ j'.primary_domain.isSome = true ∧
      j'.subdomain.isSome = true)
      jobs ((rank_jobs_domain_aware sim resume_text jobs ra).2) := by
  simp only [rank_jobs_domain_aware]
  rw [List.forall₂_map_right_iff, List.forall₂_same]
  intro x _
  exact ⟨rfl, rfl, rfl, rfl, rfl, rfl, rfl, rfl, rfl, rfl, rfl, rfl⟩

end JobRec
